import Mathlib

/-!
# Verification of the deterministic task-generation and scoring pipeline

A shallow embedding, in Lean 4, of the core pipeline of the `llm-deployment`
repository: seed derivation (`utils/task_generator.py`, `SeedGenerator`),
template instantiation (`TaskTemplate` / `TaskGenerator`), the evaluation
stage battery (`coreapp/evaluate.py`, `RepositoryEvaluator`), the two
submission-intake endpoints (`coreapp/evaluation_api.py`,
`coreapp/api_server.py`) and the per-identity rate limiter
(`APIServer._check_rate_limit`).

Modelling conventions:
* Python strings become `String`; Python slicing `s[:n]` becomes `strTake`,
  substring tests (`in`), `startswith` and `str.replace` become the
  executable list-level helpers below, so that behaviour can be proved and
  evaluated.
* Machine-level randomness is made explicit: `random.Random(seed)` is a
  deterministic stream of naturals derived from the seed (`PyRng`),
  `os.urandom` draws (inside `uuid.uuid4`) and the wall clock
  (`datetime.now().isoformat()`) are explicit parameters of the embedded
  functions.
* Fallible code returns `Except`/`Option`; Python exceptions raised across an
  embedded function's boundary are explicit outcome constructors.
* `time.time()` is modelled with integer seconds (`ℤ`); scores are exact
  rationals (`ℚ`).
-/

/-- `leadsList pat l` is true when `pat` is an initial run of `l`
(the list-level form of Python `str.startswith`). -/
def leadsList : List Char → List Char → Bool
  | [], _ => true
  | _ :: _, [] => false
  | a :: as, b :: bs => a = b && leadsList as bs

/-- `hasSeg pat l` is true when `pat` occurs contiguously inside `l`
(the list-level form of Python `pat in s`). -/
def hasSeg (pat : List Char) : List Char → Bool
  | [] => leadsList pat []
  | c :: rest => leadsList pat (c :: rest) || hasSeg pat rest

theorem leadsList_iff (p l : List Char) : leadsList p l = true ↔ ∃ t, l = p ++ t := by
  induction p generalizing l with
  | nil => simp [leadsList]
  | cons a as ih =>
    cases l with
    | nil =>
      simp [leadsList]
    | cons b bs =>
      simp only [leadsList, Bool.and_eq_true, decide_eq_true_eq, ih]
      constructor
      · rintro ⟨rfl, t, rfl⟩
        exact ⟨t, rfl⟩
      · rintro ⟨t, ht⟩
        cases ht
        exact ⟨rfl, t, rfl⟩

theorem hasSeg_iff (q l : List Char) : hasSeg q l = true ↔ ∃ a b, l = a ++ (q ++ b) := by
  induction l with
  | nil =>
    cases q with
    | nil => simp [hasSeg, leadsList]
    | cons x xs =>
      simp only [hasSeg, leadsList, iff_false, Bool.false_eq_true, false_iff]
      rintro ⟨a, b, hab⟩
      simp at hab
  | cons c rest ih =>
    simp only [hasSeg, Bool.or_eq_true, leadsList_iff, ih]
    constructor
    · rintro (⟨t, ht⟩ | ⟨a, b, rfl⟩)
      · exact ⟨[], t, by simpa using ht⟩
      · exact ⟨c :: a, b, rfl⟩
    · rintro ⟨a, b, hab⟩
      cases a with
      | nil => exact Or.inl ⟨b, by simpa using hab⟩
      | cons x xs =>
        cases hab
        exact Or.inr ⟨xs, b, rfl⟩

/-- If `p` leads `l` and `q` occurs in `p`, then `q` occurs in `l`. -/
theorem hasSeg_of_leadsList {p l q : List Char} (h₁ : leadsList p l = true)
    (h₂ : hasSeg q p = true) : hasSeg q l = true := by
  rw [leadsList_iff] at h₁
  rw [hasSeg_iff] at h₂ ⊢
  obtain ⟨t, rfl⟩ := h₁
  obtain ⟨a, b, rfl⟩ := h₂
  exact ⟨a, b ++ t, by simp⟩

/-- Worker for `replaceSeg`: `skip` counts characters of an already-matched
occurrence that remain to be discarded (kept structural on the list so that
the kernel can evaluate it). -/
def replaceSegF (pat rep : List Char) : ℕ → List Char → List Char
  | _, [] => []
  | k + 1, _ :: rest => replaceSegF pat rep k rest
  | 0, c :: rest =>
    if leadsList pat (c :: rest) && !pat.isEmpty then
      rep ++ replaceSegF pat rep (pat.length - 1) rest
    else
      c :: replaceSegF pat rep 0 rest

/-- List-level form of Python `str.replace(pat, rep)` for a non-empty
pattern (replace every non-overlapping occurrence, scanning left to
right). -/
def replaceSeg (pat rep l : List Char) : List Char :=
  replaceSegF pat rep 0 l

/-- `str.replace` on strings. -/
def strReplace (s pat rep : String) : String :=
  ⟨replaceSeg pat.data rep.data s.data⟩

/-- Python slicing `s[:n]`. -/
def strTake (s : String) (n : ℕ) : String := ⟨s.data.take n⟩

/-- Python `pat in s`. -/
def strContains (s pat : String) : Bool := hasSeg pat.data s.data

/-- Python `s.startswith(pat)`. -/
def strLeads (s pat : String) : Bool := leadsList pat.data s.data

/-- Python `s.lower()` (ASCII case folding, the only case the pipeline's
inputs exercise). -/
def pyLower (s : String) : String := ⟨s.data.map Char.toLower⟩

/-- `splitSep sep l` splits `l` at every occurrence of `sep`
(the list-level form of Python `str.split(sep)`). -/
def splitSep (sep : Char) : List Char → List (List Char)
  | [] => [[]]
  | c :: rest =>
    if c = sep then [] :: splitSep sep rest
    else
      match splitSep sep rest with
      | [] => [[c]]
      | g :: gs => (c :: g) :: gs

theorem splitSep_ne_nil (sep : Char) (l : List Char) : splitSep sep l ≠ [] := by
  cases l with
  | nil => simp [splitSep]
  | cons c rest =>
    by_cases h : c = sep
    · simp [splitSep, h]
    · simp only [splitSep, if_neg h]
      cases splitSep sep rest <;> simp

theorem splitSep_clean (sep : Char) (xs : List Char) (h : ∀ c ∈ xs, c ≠ sep) :
    splitSep sep xs = [xs] := by
  induction xs with
  | nil => simp [splitSep]
  | cons c rest ih =>
    have hc : c ≠ sep := h c (by simp)
    have := ih (fun d hd => h d (by simp [hd]))
    simp [splitSep, hc, this]

theorem splitSep_append (sep : Char) (xs ys : List Char) (h : ∀ c ∈ xs, c ≠ sep) :
    splitSep sep (xs ++ sep :: ys) = xs :: splitSep sep ys := by
  induction xs with
  | nil => simp [splitSep]
  | cons c rest ih =>
    have hc : c ≠ sep := h c (by simp)
    have := ih (fun d hd => h d (by simp [hd]))
    simp [splitSep, hc, this]

/-- One decimal digit as a character. -/
def digitChar (n : ℕ) : Char := Char.ofNat (48 + n)

/-- Fuel-driven decimal rendering worker. -/
def decNatAux : ℕ → ℕ → List Char
  | 0, _ => []
  | f + 1, n =>
    if n < 10 then [digitChar n]
    else decNatAux f (n / 10) ++ [digitChar (n % 10)]

/-- Decimal rendering of a natural number, modelling Python `str(n)` /
`f"{n}"` for a non-negative integer. -/
def decNat (n : ℕ) : String := ⟨decNatAux (n + 1) n⟩

/-- Numeric value of a list of decimal digit characters (the reader used to
check round-tripping of rendered numbers inside generated CSV). -/
def parseNatD (l : List Char) : ℕ :=
  l.foldl (fun a c => 10 * a + (c.toNat - 48)) 0

theorem parseNatD_append_digit (xs : List Char) (c : Char) :
    parseNatD (xs ++ [c]) = 10 * parseNatD xs + (c.toNat - 48) := by
  simp [parseNatD, List.foldl_append]

theorem parseNatD_decNatAux (f n : ℕ) (h : n < f) :
    parseNatD (decNatAux f n) = n := by
  induction f generalizing n with
  | zero => omega
  | succ f ih =>
    by_cases h10 : n < 10
    · have : (digitChar n).toNat = 48 + n := by
        interval_cases n <;> rfl
      simp [decNatAux, h10, parseNatD, this]
    · have hdiv : n / 10 < f := by omega
      have hmod : (digitChar (n % 10)).toNat = 48 + n % 10 := by
        have : n % 10 < 10 := Nat.mod_lt _ (by omega)
        interval_cases h : (n % 10) <;> rfl
      rw [decNatAux, if_neg h10, parseNatD_append_digit, ih _ hdiv, hmod]
      omega

theorem parseNatD_decNat (n : ℕ) : parseNatD (decNat n).data = n :=
  parseNatD_decNatAux (n + 1) n (Nat.lt_succ_self n)

theorem decNatAux_digits (f n : ℕ) : ∀ c ∈ decNatAux f n, c.isDigit = true := by
  induction f generalizing n with
  | zero => simp [decNatAux]
  | succ f ih =>
    intro c hc
    by_cases h10 : n < 10
    · simp only [decNatAux, if_pos h10, List.mem_singleton] at hc
      subst hc
      interval_cases n <;> rfl
    · simp only [decNatAux, if_neg h10, List.mem_append, List.mem_singleton] at hc
      rcases hc with hc | hc
      · exact ih _ _ hc
      · subst hc
        have : n % 10 < 10 := Nat.mod_lt _ (by omega)
        interval_cases h : (n % 10) <;> rfl

theorem digit_ne_comma {c : Char} (h : c.isDigit = true) : c ≠ ',' := by
  intro hc; subst hc; exact absurd h (by decide)

theorem digit_ne_newline {c : Char} (h : c.isDigit = true) : c ≠ '\n' := by
  intro hc; subst hc; exact absurd h (by decide)

/-- One hexadecimal digit as a character (lower case, as `%x` formatting and
`hexdigest` produce). -/
def hexDigitChar (n : ℕ) : Char :=
  if n < 10 then Char.ofNat (48 + n) else Char.ofNat (87 + n)

/-- The sixteen lower-case hexadecimal digit characters. -/
def hexCharList : List Char :=
  ['\x30', '\x31', '\x32', '\x33', '\x34', '\x35', '\x36', '\x37', '\x38', '\x39',
   '\x61', '\x62', '\x63', '\x64', '\x65', '\x66']

/-- Fixed-width (`w` digits, most significant first) hexadecimal rendering,
modelling `%0{w}x` formatting. -/
def toHexFixed : ℕ → ℕ → List Char
  | 0, _ => []
  | w + 1, n => toHexFixed w (n / 16) ++ [hexDigitChar (n % 16)]

theorem length_toHexFixed (w n : ℕ) : (toHexFixed w n).length = w := by
  induction w generalizing n with
  | zero => rfl
  | succ w ih => simp [toHexFixed, ih]

theorem toHexFixed_mem_hex (w n : ℕ) : ∀ c ∈ toHexFixed w n, c ∈ hexCharList := by
  induction w generalizing n with
  | zero => simp [toHexFixed]
  | succ w ih =>
    intro c hc
    simp only [toHexFixed, List.mem_append, List.mem_singleton] at hc
    rcases hc with hc | hc
    · exact ih _ _ hc
    · subst hc
      have : n % 16 < 16 := Nat.mod_lt _ (by omega)
      interval_cases h : (n % 16) <;> decide

theorem hexDigitChar_injOn {a b : ℕ} (ha : a < 16) (hb : b < 16)
    (h : hexDigitChar a = hexDigitChar b) : a = b := by
  interval_cases a <;> interval_cases b <;> simp_all <;> exact absurd h (by decide)

theorem toHexFixed_injOn {w m n : ℕ} (hm : m < 16 ^ w) (hn : n < 16 ^ w)
    (h : toHexFixed w m = toHexFixed w n) : m = n := by
  induction w generalizing m n with
  | zero =>
    simp [Nat.pow_zero, Nat.lt_one_iff] at hm hn
    omega
  | succ w ih =>
    simp only [toHexFixed] at h
    have hlen : (toHexFixed w (m / 16)).length = (toHexFixed w (n / 16)).length := by
      simp [length_toHexFixed]
    obtain ⟨h₁, h₂⟩ := List.append_inj h hlen
    have hdvd : m / 16 = n / 16 := by
      apply ih
      · exact Nat.div_lt_of_lt_mul (by rw [Nat.pow_succ] at hm; omega)
      · exact Nat.div_lt_of_lt_mul (by rw [Nat.pow_succ] at hn; omega)
      · exact h₁
    have hmod : m % 16 = n % 16 := by
      apply hexDigitChar_injOn (Nat.mod_lt _ (by omega)) (Nat.mod_lt _ (by omega))
      simpa using h₂
    omega

/-- UTF-8 encoding of one character (`str.encode()` acts per character). -/
def utf8EncodeChar (c : Char) : List ℕ :=
  let n := c.toNat
  if n < 128 then [n]
  else if n < 2048 then [192 + n / 64, 128 + n % 64]
  else if n < 65536 then [224 + n / 4096, 128 + (n / 64) % 64, 128 + n % 64]
  else [240 + n / 262144, 128 + (n / 4096) % 64, 128 + (n / 64) % 64, 128 + n % 64]

/-- Python `s.encode()`: the UTF-8 byte sequence of a string. -/
def strBytes (s : String) : List ℕ :=
  s.data.foldr (fun c acc => utf8EncodeChar c ++ acc) []

/-- Truncate to a 32-bit word. -/
def w32 (n : ℕ) : ℕ := n % 4294967296

/-- Right rotation of a 32-bit word. -/
def rotr32 (k n : ℕ) : ℕ := w32 ((n >>> k) ||| (n <<< (32 - k)))

/-- Big-endian fixed-width byte rendering. -/
def toBytesBE : ℕ → ℕ → List ℕ
  | 0, _ => []
  | w + 1, n => toBytesBE w (n / 256) ++ [n % 256]

theorem length_toBytesBE (w n : ℕ) : (toBytesBE w n).length = w := by
  induction w generalizing n with
  | zero => rfl
  | succ w ih => simp [toBytesBE, ih]

/-- SHA-256 round constants. -/
def sha256K : List ℕ :=
  [1116352408, 1899447441, 3049323471, 3921009573, 961987163, 1508970993,
   2453635748, 2870763221, 3624381080, 310598401, 607225278, 1426881987,
   1925078388, 2162078206, 2614888103, 3248222580, 3835390401, 4022224774,
   264347078, 604807628, 770255983, 1249150122, 1555081692, 1996064986,
   2554220882, 2821834349, 2952996808, 3210313671, 3336571891, 3584528711,
   113926993, 338241895, 666307205, 773529912, 1294757372, 1396182291,
   1695183700, 1986661051, 2177026350, 2456956037, 2730485921, 2820302411,
   3259730800, 3345764771, 3516065817, 3600352804, 4094571909, 275423344,
   430227734, 506948616, 659060556, 883997877, 958139571, 1322822218,
   1537002063, 1747873779, 1955562222, 2024104815, 2227730452, 2361852424,
   2428436474, 2756734187, 3204031479, 3329325298]

/-- SHA-256 initial hash state. -/
def sha256InitH : List ℕ :=
  [1779033703, 3144134277, 1013904242, 2773480762,
   1359893119, 2600822924, 528734635, 1541459225]

def sha256Ch (x y z : ℕ) : ℕ := w32 ((x &&& y) ^^^ ((4294967295 ^^^ x) &&& z))

def sha256Maj (x y z : ℕ) : ℕ := w32 ((x &&& y) ^^^ (x &&& z) ^^^ (y &&& z))

def sha256BigSigma0 (x : ℕ) : ℕ := rotr32 2 x ^^^ rotr32 13 x ^^^ rotr32 22 x

def sha256BigSigma1 (x : ℕ) : ℕ := rotr32 6 x ^^^ rotr32 11 x ^^^ rotr32 25 x

def sha256SmallSigma0 (x : ℕ) : ℕ := rotr32 7 x ^^^ rotr32 18 x ^^^ (x >>> 3)

def sha256SmallSigma1 (x : ℕ) : ℕ := rotr32 17 x ^^^ rotr32 19 x ^^^ (x >>> 10)

/-- SHA-256 message padding: append `0x80`, zeros, and the 64-bit big-endian
bit length, reaching a multiple of 64 bytes. -/
def sha256Pad (msg : List ℕ) : List ℕ :=
  let L := msg.length
  let z := (64 - (L + 9) % 64) % 64
  msg ++ [128] ++ List.replicate z 0 ++ toBytesBE 8 (8 * L)

/-- Split a byte string into 64-byte blocks (fuel-driven, structural). -/
def chunksOf64 : ℕ → List ℕ → List (List ℕ)
  | 0, _ => []
  | _ + 1, [] => []
  | f + 1, l => l.take 64 :: chunksOf64 f (l.drop 64)

/-- Group bytes into 32-bit big-endian words (fuel counts words). -/
def bytesToWordsBE : ℕ → List ℕ → List ℕ
  | 0, _ => []
  | f + 1, b0 :: b1 :: b2 :: b3 :: rest =>
    (b0 * 16777216 + b1 * 65536 + b2 * 256 + b3) :: bytesToWordsBE f rest
  | _ + 1, _ => []

/-- Extend the sixteen block words to the 64-entry message schedule. -/
def sha256Schedule (ws16 : List ℕ) : List ℕ :=
  (List.range 48).foldl
    (fun ws i =>
      ws ++ [w32 (sha256SmallSigma1 (ws.getD (i + 14) 0) + ws.getD (i + 9) 0 +
        sha256SmallSigma0 (ws.getD (i + 1) 0) + ws.getD i 0)])
    ws16

/-- One SHA-256 compression round on the eight-word working state. -/
def sha256Round (ws : List ℕ) (st : List ℕ) (t : ℕ) : List ℕ :=
  match st with
  | [a, b, c, d, e, f, g, h] =>
    let t1 := w32 (h + sha256BigSigma1 e + sha256Ch e f g + sha256K.getD t 0 + ws.getD t 0)
    let t2 := w32 (sha256BigSigma0 a + sha256Maj a b c)
    [w32 (t1 + t2), a, b, c, w32 (d + t1), e, f, g]
  | _ => st

/-- Process one 64-byte block. -/
def sha256Block (st : List ℕ) (block : List ℕ) : List ℕ :=
  let ws := sha256Schedule (bytesToWordsBE 16 block)
  let fin := (List.range 64).foldl (sha256Round ws) st
  match st, fin with
  | [h0, h1, h2, h3, h4, h5, h6, h7], [a, b, c, d, e, f, g, h] =>
    [w32 (h0 + a), w32 (h1 + b), w32 (h2 + c), w32 (h3 + d),
     w32 (h4 + e), w32 (h5 + f), w32 (h6 + g), w32 (h7 + h)]
  | _, _ => st

/-- The SHA-256 digest of a byte string, as 32 bytes. -/
def sha256Digest (msg : List ℕ) : List ℕ :=
  let padded := sha256Pad msg
  let final := (chunksOf64 padded.length padded).foldl sha256Block sha256InitH
  final.foldr (fun wd acc => toBytesBE 4 wd ++ acc) []

/-- Render bytes as lower-case hex characters. -/
def bytesToHex (l : List ℕ) : List Char :=
  l.foldr (fun b acc => toHexFixed 2 b ++ acc) []

/-- `hashlib.sha256(s.encode()).hexdigest()`. -/
def sha256hexStr (s : String) : String := ⟨bytesToHex (sha256Digest (strBytes s))⟩

theorem length_sha256Round (ws st : List ℕ) (t : ℕ) :
    (sha256Round ws st t).length = st.length := by
  unfold sha256Round
  split <;> simp_all

theorem length_foldl_sha256Round (ws : List ℕ) (l : List ℕ) (st : List ℕ) :
    ((l.foldl (sha256Round ws) st)).length = st.length := by
  induction l generalizing st with
  | nil => rfl
  | cons x xs ih => rw [List.foldl_cons, ih, length_sha256Round]

theorem length_sha256Block (st block : List ℕ) :
    (sha256Block st block).length = st.length := by
  unfold sha256Block
  dsimp only
  split <;> simp_all

theorem length_foldl_sha256Block (bs : List (List ℕ)) (st : List ℕ) :
    (bs.foldl sha256Block st).length = st.length := by
  induction bs generalizing st with
  | nil => rfl
  | cons b bs ih => rw [List.foldl_cons, ih, length_sha256Block]

theorem length_bytesToHex (l : List ℕ) : (bytesToHex l).length = 2 * l.length := by
  induction l with
  | nil => rfl
  | cons b bs ih =>
    simp only [bytesToHex, List.foldr_cons] at ih ⊢
    simp [List.length_append, length_toHexFixed, ih]
    ring

theorem bytesToHex_mem_hex (l : List ℕ) : ∀ c ∈ bytesToHex l, c ∈ hexCharList := by
  induction l with
  | nil => simp [bytesToHex]
  | cons b bs ih =>
    intro c hc
    simp only [bytesToHex, List.foldr_cons, List.mem_append] at hc
    rcases hc with hc | hc
    · exact toHexFixed_mem_hex 2 b c hc
    · exact ih c hc

theorem length_sha256Digest (msg : List ℕ) : (sha256Digest msg).length = 32 := by
  unfold sha256Digest
  have key : ∀ l : List ℕ,
      (l.foldr (fun wd acc => toBytesBE 4 wd ++ acc) []).length = 4 * l.length := by
    intro l
    induction l with
    | nil => rfl
    | cons x xs ih => simp [List.foldr_cons, length_toBytesBE, ih]; ring
  rw [key, length_foldl_sha256Block]
  rfl

/-- Left rotation of a 32-bit word. -/
def rotl32 (k n : ℕ) : ℕ := w32 ((n <<< k) ||| (n >>> (32 - k)))

/-- Little-endian fixed-width byte rendering. -/
def toBytesLE : ℕ → ℕ → List ℕ
  | 0, _ => []
  | w + 1, n => n % 256 :: toBytesLE w (n / 256)

/-- Group bytes into 32-bit little-endian words (fuel counts words). -/
def bytesToWordsLE : ℕ → List ℕ → List ℕ
  | 0, _ => []
  | f + 1, b0 :: b1 :: b2 :: b3 :: rest =>
    (b0 + b1 * 256 + b2 * 65536 + b3 * 16777216) :: bytesToWordsLE f rest
  | _ + 1, _ => []

/-- MD5 per-round left-rotation amounts. -/
def md5S : List ℕ :=
  [7, 12, 17, 22, 7, 12, 17, 22, 7, 12, 17, 22, 7, 12, 17, 22,
   5, 9, 14, 20, 5, 9, 14, 20, 5, 9, 14, 20, 5, 9, 14, 20,
   4, 11, 16, 23, 4, 11, 16, 23, 4, 11, 16, 23, 4, 11, 16, 23,
   6, 10, 15, 21, 6, 10, 15, 21, 6, 10, 15, 21, 6, 10, 15, 21]

/-- MD5 sine-derived round constants. -/
def md5K : List ℕ :=
  [0xd76aa478, 0xe8c7b756, 0x242070db, 0xc1bdceee, 0xf57c0faf, 0x4787c62a,
   0xa8304613, 0xfd469501, 0x698098d8, 0x8b44f7af, 0xffff5bb1, 0x895cd7be,
   0x6b901122, 0xfd987193, 0xa679438e, 0x49b40821, 0xf61e2562, 0xc040b340,
   0x265e5a51, 0xe9b6c7aa, 0xd62f105d, 0x02441453, 0xd8a1e681, 0xe7d3fbc8,
   0x21e1cde6, 0xc33707d6, 0xf4d50d87, 0x455a14ed, 0xa9e3e905, 0xfcefa3f8,
   0x676f02d9, 0x8d2a4c8a, 0xfffa3942, 0x8771f681, 0x6d9d6122, 0xfde5380c,
   0xa4beea44, 0x4bdecfa9, 0xf6bb4b60, 0xbebfbc70, 0x289b7ec6, 0xeaa127fa,
   0xd4ef3085, 0x04881d05, 0xd9d4d039, 0xe6db99e5, 0x1fa27cf8, 0xc4ac5665,
   0xf4292244, 0x432aff97, 0xab9423a7, 0xfc93a039, 0x655b59c3, 0x8f0ccc92,
   0xffeff47d, 0x85845dd1, 0x6fa87e4f, 0xfe2ce6e0, 0xa3014314, 0x4e0811a1,
   0xf7537e82, 0xbd3af235, 0x2ad7d2bb, 0xeb86d391]

/-- Bitwise complement within 32 bits. -/
def not32 (x : ℕ) : ℕ := 4294967295 ^^^ x

/-- One MD5 round on the `[a, b, c, d]` working state. -/
def md5Round (m : List ℕ) (st : List ℕ) (i : ℕ) : List ℕ :=
  match st with
  | [a, b, c, d] =>
    let fg : ℕ × ℕ :=
      if i < 16 then ((b &&& c) ||| (not32 b &&& d), i)
      else if i < 32 then ((d &&& b) ||| (not32 d &&& c), (5 * i + 1) % 16)
      else if i < 48 then (b ^^^ c ^^^ d, (3 * i + 5) % 16)
      else (c ^^^ (b ||| not32 d), (7 * i) % 16)
    let nb := w32 (b + rotl32 (md5S.getD i 0) (w32 (a + fg.1 + md5K.getD i 0 + m.getD fg.2 0)))
    [d, nb, b, c]
  | _ => st

/-- MD5 message padding: `0x80`, zeros, then the 64-bit little-endian bit
length. -/
def md5Pad (msg : List ℕ) : List ℕ :=
  let L := msg.length
  let z := (64 - (L + 9) % 64) % 64
  msg ++ [128] ++ List.replicate z 0 ++ toBytesLE 8 (8 * L)

/-- Process one 64-byte MD5 block. -/
def md5Block (st : List ℕ) (block : List ℕ) : List ℕ :=
  let m := bytesToWordsLE 16 block
  let fin := (List.range 64).foldl (md5Round m) st
  match st, fin with
  | [a0, b0, c0, d0], [a, b, c, d] =>
    [w32 (a0 + a), w32 (b0 + b), w32 (c0 + c), w32 (d0 + d)]
  | _, _ => st

/-- The MD5 digest of a byte string, as 16 bytes. -/
def md5Digest (msg : List ℕ) : List ℕ :=
  let padded := md5Pad msg
  let final := (chunksOf64 padded.length padded).foldl md5Block
    [0x67452301, 0xefcdab89, 0x98badcfe, 0x10325476]
  final.foldr (fun wd acc => toBytesLE 4 wd ++ acc) []

/-- `hashlib.md5(s.encode()).hexdigest()`. -/
def md5hexStr (s : String) : String := ⟨bytesToHex (md5Digest (strBytes s))⟩

/-- The base64 alphabet. -/
def b64Alphabet : List Char :=
  "ABCDEFGHIJKLMNOPQRSTUVWXYZabcdefghijklmnopqrstuvwxyz0123456789+/".data

/-- Encode bytes in base64 with `=` padding (`base64.b64encode`). -/
def b64Encode : List ℕ → List Char
  | [] => []
  | [b0] =>
    [b64Alphabet.getD (b0 >>> 2) 'A', b64Alphabet.getD ((b0 &&& 3) <<< 4) 'A', '=', '=']
  | [b0, b1] =>
    [b64Alphabet.getD (b0 >>> 2) 'A', b64Alphabet.getD (((b0 &&& 3) <<< 4) ||| (b1 >>> 4)) 'A',
     b64Alphabet.getD ((b1 &&& 15) <<< 2) 'A', '=']
  | b0 :: b1 :: b2 :: rest =>
    [b64Alphabet.getD (b0 >>> 2) 'A', b64Alphabet.getD (((b0 &&& 3) <<< 4) ||| (b1 >>> 4)) 'A',
     b64Alphabet.getD (((b1 &&& 15) <<< 2) ||| (b2 >>> 6)) 'A', b64Alphabet.getD (b2 &&& 63) 'A']
      ++ b64Encode rest

/-- `base64.b64encode(s.encode()).decode()`. -/
def base64encode (s : String) : String := ⟨b64Encode (strBytes s)⟩

/-- The bit surgery `uuid.UUID(bytes=..., version=4)` performs on the
128 random bits: force the RFC 4122 variant and version-4 bits. -/
def uuidMask (e : ℕ) : ℕ :=
  let i0 := e % (2 ^ 128)
  let i1 := i0 &&& (2 ^ 128 - 1 - (0xc000 <<< 48))
  let i2 := i1 ||| (0x8000 <<< 48)
  let i3 := i2 &&& (2 ^ 128 - 1 - (0xf000 <<< 64))
  i3 ||| (0x4000 <<< 64)

/-- `str(uuid.UUID(...))`: 32 hex digits with dashes in the 8-4-4-4-12
pattern. -/
def uuidStr (n : ℕ) : String :=
  let h := toHexFixed 32 n
  ⟨h.take 8 ++ '-' :: ((h.drop 8).take 4 ++ '-' :: ((h.drop 12).take 4 ++ '-' ::
    ((h.drop 16).take 4 ++ '-' :: h.drop 20)))⟩

/-- `str(uuid.uuid4())`, with the 16 `os.urandom` bytes passed explicitly as
`entropy`. -/
def uuid4From (entropy : ℕ) : String := uuidStr (uuidMask entropy)

theorem hex_ne_dash {c : Char} (h : c ∈ hexCharList) : (c != '-') = true := by
  fin_cases h <;> decide

theorem filter_hex_sub {h : List Char} (hhex : ∀ c ∈ h, c ∈ hexCharList)
    (l : List Char) (hsub : l.Sublist h) : l.filter (fun c => c != '-') = l :=
  List.filter_eq_self.mpr fun c hc => hex_ne_dash (hhex c (hsub.mem hc))

theorem hex_take_drop_decomp (h : List Char) :
    h.take 8 ++ ((h.drop 8).take 4 ++ ((h.drop 12).take 4 ++
      ((h.drop 16).take 4 ++ h.drop 20))) = h := by
  have h12 : (h.drop 8).drop 4 = h.drop 12 := by rw [List.drop_drop]
  have h16 : (h.drop 12).drop 4 = h.drop 16 := by rw [List.drop_drop]
  have h20 : (h.drop 16).drop 4 = h.drop 20 := by rw [List.drop_drop]
  rw [← h20, List.take_append_drop, ← h16, List.take_append_drop, ← h12,
    List.take_append_drop, List.take_append_drop]

theorem uuidStr_data_filter (n : ℕ) :
    (uuidStr n).data.filter (fun c => c != '-') = toHexFixed 32 n := by
  have hhex := toHexFixed_mem_hex 32 n
  have t8 := filter_hex_sub hhex _ (List.take_sublist 8 (toHexFixed 32 n))
  have d8 := filter_hex_sub hhex _ ((List.take_sublist 4 _).trans (List.drop_sublist 8 (toHexFixed 32 n)))
  have d12 := filter_hex_sub hhex _ ((List.take_sublist 4 _).trans (List.drop_sublist 12 (toHexFixed 32 n)))
  have d16 := filter_hex_sub hhex _ ((List.take_sublist 4 _).trans (List.drop_sublist 16 (toHexFixed 32 n)))
  have d20 := filter_hex_sub hhex _ (List.drop_sublist 20 (toHexFixed 32 n))
  unfold uuidStr
  dsimp only
  rw [List.filter_append, t8, List.filter_cons]
  norm_num
  rw [d8, d12, d16, d20]
  exact hex_take_drop_decomp (toHexFixed 32 n)

theorem uuidStr_injOn {m n : ℕ} (hm : m < 2 ^ 128) (hn : n < 2 ^ 128)
    (h : uuidStr m = uuidStr n) : m = n := by
  have hd : (uuidStr m).data = (uuidStr n).data := by rw [h]
  have := congrArg (List.filter (fun c => c != '-')) hd
  rw [uuidStr_data_filter, uuidStr_data_filter] at this
  exact toHexFixed_injOn (by norm_num at hm ⊢; exact hm) (by norm_num at hn ⊢; exact hn) this

theorem uuidMask_lt (e : ℕ) : uuidMask e < 2 ^ 128 := by
  unfold uuidMask
  apply Nat.or_lt_two_pow
  · exact Nat.and_lt_two_pow _ (by simp [Nat.shiftLeft_eq])
  · simp [Nat.shiftLeft_eq]

theorem uuid4From_inj {e₁ e₂ : ℕ} (h : uuidMask e₁ ≠ uuidMask e₂) :
    uuid4From e₁ ≠ uuid4From e₂ := fun hc =>
  h (uuidStr_injOn (uuidMask_lt e₁) (uuidMask_lt e₂) hc)

/-- An explicit model of a `random.Random` instance: a deterministic stream
of naturals together with the index of the next draw.  Each primitive
(`randint`, `choice`, `shuffle`) consumes draws from the stream. -/
structure PyRng where
  stream : ℕ → ℕ
  idx : ℕ

/-- Draw the next raw value. -/
def PyRng.next (r : PyRng) : ℕ × PyRng :=
  (r.stream r.idx, { r with idx := r.idx + 1 })

/-- `rng.randint(lo, hi)`: uniform over `[lo, hi]`, both ends included. -/
def PyRng.randint (lo hi : ℕ) (r : PyRng) : ℕ × PyRng :=
  let (v, r') := r.next
  (lo + v % (hi + 1 - lo), r')

/-- `rng.choice(l)` (with an explicit default for the never-exercised empty
case). -/
def PyRng.choice {α : Type} (l : List α) (d : α) (r : PyRng) : α × PyRng :=
  let (v, r') := r.next
  (l.getD (v % l.length) d, r')

/-- Swap two positions of a list. -/
def swapIdx {α : Type} (l : List α) (i j : ℕ) (d : α) : List α :=
  (l.set i (l.getD j d)).set j (l.getD i d)

/-- Fisher–Yates worker: the loop index runs from `len - 1` down to `1`. -/
def PyRng.shuffleAux {α : Type} (d : α) : ℕ → List α → PyRng → List α × PyRng
  | 0, l, r => (l, r)
  | i + 1, l, r =>
    let (v, r') := r.next
    let j := v % (i + 2)
    PyRng.shuffleAux d i (swapIdx l (i + 1) j d) r'

/-- `rng.shuffle(l)` (Fisher–Yates, as CPython implements it). -/
def PyRng.shuffle {α : Type} (l : List α) (d : α) (r : PyRng) : List α × PyRng :=
  PyRng.shuffleAux d (l.length - 1) l r

/-- Models `random.Random(seed)`: CPython seeds a Mersenne Twister from the
seed string, after which the generator is a pure function of that string.
The Twister's exact values are irrelevant to every claim below (each theorem
either quantifies over an arbitrary stream or uses determinism only), so the
model keeps exactly what matters: a fixed pure function of the seed and the
draw index. -/
def mtStream (seed : String) (n : ℕ) : ℕ :=
  (strBytes seed).foldl (fun a b => a * 31 + b) 7 + n

/-- `random.Random(seed)`. -/
def pyRandom (seed : String) : PyRng := ⟨mtStream seed, 0⟩

/-- The fixed currency table of the `"json"` fixture together with the
seed/timestamp metadata (`json` branch of `generate_random_data`). -/
structure JsonFixture where
  currencies : List (String × ℚ)
  seed : String
  generated_at : String
deriving DecidableEq

def jsonCurrencies : List (String × ℚ) :=
  [("USD", 1), ("EUR", (85 : ℚ)/100), ("GBP", (73 : ℚ)/100),
   ("JPY", 110), ("CAD", (125 : ℚ)/100)]

/-- The possible results of `SeedGenerator.generate_random_data`, one
constructor per `data_type` branch (`csv_data` returns a pair, `json`
returns a dict, unknown kinds return `None`). -/
inductive RandomData where
  | str (s : String)
  | num (n : ℕ)
  | csv (content : String) (total : ℕ)
  | md (content : String)
  | jsonData (j : JsonFixture)
  | none
deriving DecidableEq

def csvProducts : List String := ["Product A", "Product B", "Product C", "Product D"]

def csvRegions : List String := ["North", "South", "East", "West"]

/-- The per-product loop of the `csv_data` branch: draw sales in
`[100, 1000]` and a region for each chosen product. -/
def csvRowsAux : List String → PyRng → List (String × ℕ × String) × PyRng
  | [], r => ([], r)
  | p :: ps, r =>
    let (sales, r₁) := PyRng.randint 100 1000 r
    let (region, r₂) := PyRng.choice csvRegions "" r₁
    let (rest, r₃) := csvRowsAux ps r₂
    ((p, sales, region) :: rest, r₃)

/-- Append each row as `f"{product},{sales},{region}\n"`. -/
def renderCsvRows (rows : List (String × ℕ × String)) : String :=
  rows.foldr (fun row acc => row.1 ++ "," ++ decNat row.2.1 ++ "," ++ row.2.2 ++ "\n" ++ acc) ""

/-- The `csv_data` branch of `generate_random_data`: shuffle the products,
keep `randint(2, 4)` of them, emit CSV text and the running total of the
generated `Sales` column. -/
def generateCsvData (r : PyRng) : String × ℕ :=
  let s := PyRng.shuffle csvProducts "" r
  let k := PyRng.randint 2 4 s.2
  let rows := (csvRowsAux (s.1.take k.1) k.2).1
  ("Product,Sales,Region\n" ++ renderCsvRows rows, (rows.map (fun row => row.2.1)).sum)

/-- The `markdown` branch's f-string, with the wall-clock reading
(`datetime.now().isoformat()`) passed explicitly as `now`. -/
def markdownContent (now seed : String) : String :=
  "# Sample Markdown Content\n\nThis is a sample markdown file generated for task "
    ++ strTake seed 8
    ++ ".\n\n## Features\n\n- Random seed: " ++ seed
    ++ "\n- Generated at: " ++ now
    ++ "\n- Contains various markdown elements\n\n### Code Example\n\n```python\ndef hello_world():\n    print(\"Hello, World!\")\n    return \"success\"\n```\n\n### Lists\n\n1. Item one\n2. Item two\n3. Item three\n\n- Bullet item A\n- Bullet item B\n- Bullet item C\n\n> This is a blockquote with some **bold** and *italic* text.\n\n| Column 1 | Column 2 | Column 3 |\n|----------|----------|----------|\n| Data 1   | Data 2   | Data 3   |\n| Data 4   | Data 5   | Data 6   |\n"

/-- The `string` branch of `generate_random_data`:
`''.join(rng.choice(chars) for _ in range(length))`. -/
def genStringAux : ℕ → PyRng → List Char × PyRng
  | 0, r => ([], r)
  | n + 1, r =>
    let (c, r') := PyRng.choice "abcdefghijklmnopqrstuvwxyz0123456789".data 'a' r
    let (rest, r'') := genStringAux n r'
    (c :: rest, r'')

/-- `SeedGenerator.generate_random_data(seed, data_type, length)`.  The wall
clock (used by the `markdown` and `json` branches) is the explicit first
argument. -/
def generate_random_data (now seed data_type : String) (length : ℕ) : RandomData :=
  let rng := pyRandom seed
  if data_type = "string" then
    RandomData.str ⟨(genStringAux length rng).1⟩
  else if data_type = "number" then
    RandomData.num (PyRng.randint 1000 99999 rng).1
  else if data_type = "csv_data" then
    RandomData.csv (generateCsvData rng).1 (generateCsvData rng).2
  else if data_type = "markdown" then
    RandomData.md (markdownContent now seed)
  else if data_type = "json" then
    RandomData.jsonData ⟨jsonCurrencies, seed, now⟩
  else RandomData.none

/-- `SeedGenerator.generate_seed(email, date_string)`: first 16 hex
characters of `sha256(f"{email}:{date_string}")`. -/
def generate_seed (email date_string : String) : String :=
  strTake (sha256hexStr (email ++ ":" ++ date_string)) 16

/-- The input string `generate_seed` hashes. -/
def seedData (email date_string : String) : String := email ++ ":" ++ date_string

/-- A string free of the CSV field and record separators. -/
def cleanStr (s : String) : Prop := ∀ c ∈ s.data, c ≠ ',' ∧ c ≠ '\n'

theorem clean_products : ∀ p ∈ csvProducts, cleanStr p := by
  unfold cleanStr; decide

theorem clean_regions : ∀ g ∈ csvRegions, cleanStr g := by
  unfold cleanStr; decide

theorem clean_empty : cleanStr "" := by intro c hc; simp [String.data] at hc

theorem clean_decNat (n : ℕ) : cleanStr (decNat n) := fun c hc =>
  ⟨digit_ne_comma (decNatAux_digits _ _ c hc), digit_ne_newline (decNatAux_digits _ _ c hc)⟩

theorem getD_pred {α : Type} {p : α → Prop} {l : List α} {d : α}
    (h : ∀ x ∈ l, p x) (hd : p d) (n : ℕ) : p (l.getD n d) := by
  rw [List.getD_eq_getElem?_getD]
  cases hx : l[n]? with
  | none => simpa using hd
  | some x =>
    have := List.getElem?_mem hx
    simpa using h x this

theorem choice_pred {α : Type} {p : α → Prop} {l : List α} {d : α}
    (h : ∀ x ∈ l, p x) (hd : p d) (r : PyRng) : p (PyRng.choice l d r).1 :=
  getD_pred h hd _

theorem swapIdx_pred {α : Type} {p : α → Prop} {l : List α} {d : α}
    (h : ∀ x ∈ l, p x) (hd : p d) (i j : ℕ) : ∀ x ∈ swapIdx l i j d, p x := by
  intro x hx
  unfold swapIdx at hx
  rcases List.mem_or_eq_of_mem_set hx with hx' | rfl
  · rcases List.mem_or_eq_of_mem_set hx' with hx'' | rfl
    · exact h x hx''
    · exact getD_pred h hd j
  · exact getD_pred h hd i

theorem shuffleAux_pred {α : Type} {p : α → Prop} {d : α} (hd : p d) :
    ∀ (i : ℕ) (l : List α) (r : PyRng), (∀ x ∈ l, p x) →
      ∀ x ∈ (PyRng.shuffleAux d i l r).1, p x := by
  intro i
  induction i with
  | zero => intro l r h; simpa [PyRng.shuffleAux] using h
  | succ i ih =>
    intro l r h
    exact ih _ _ (swapIdx_pred h hd _ _)

theorem shuffle_pred {α : Type} {p : α → Prop} {l : List α} {d : α}
    (h : ∀ x ∈ l, p x) (hd : p d) (r : PyRng) :
    ∀ x ∈ (PyRng.shuffle l d r).1, p x :=
  shuffleAux_pred hd _ l r h

theorem csvRowsAux_clean (ps : List String) (r : PyRng) (h : ∀ p ∈ ps, cleanStr p) :
    ∀ row ∈ (csvRowsAux ps r).1, cleanStr row.1 ∧ cleanStr row.2.2 := by
  induction ps generalizing r with
  | nil => simp [csvRowsAux]
  | cons p ps ih =>
    intro row hrow
    simp only [csvRowsAux, List.mem_cons] at hrow
    rcases hrow with rfl | hrow
    · refine ⟨h p (by simp), ?_⟩
      exact choice_pred clean_regions clean_empty _
    · exact ih _ (fun q hq => h q (by simp [hq])) row hrow

/-- Accumulate the numeric value of field 1 (the `Sales` column) of one CSV
line. -/
def csvLineStep (acc : ℕ) (line : List Char) : ℕ :=
  acc + parseNatD ((splitSep ',' line).getD 1 [])

/-- Sum of the `Sales` column of a rendered CSV string (header skipped):
this is the reading the spec's "sum of its generated measure column" refers
to. -/
def parseCsvSalesSum (s : String) : ℕ :=
  ((splitSep '\n' s.data).drop 1).foldl csvLineStep 0

theorem csvLineStep_row (a : ℕ) (p : String) (n : ℕ) (g : String)
    (hp : cleanStr p) (hg : cleanStr g) :
    csvLineStep a (p.data ++ ',' :: ((decNat n).data ++ ',' :: g.data)) = a + n := by
  unfold csvLineStep
  rw [splitSep_append ',' p.data _ (fun c hc => (hp c hc).1),
    splitSep_append ',' (decNat n).data _ (fun c hc => ((clean_decNat n) c hc).1),
    splitSep_clean ',' g.data (fun c hc => (hg c hc).1)]
  simp [List.getD, parseNatD_decNat]

theorem parse_render (rows : List (String × ℕ × String))
    (h : ∀ row ∈ rows, cleanStr row.1 ∧ cleanStr row.2.2) (a : ℕ) :
    (splitSep '\n' (renderCsvRows rows).data).foldl csvLineStep a
      = a + (rows.map (fun row => row.2.1)).sum := by
  induction rows generalizing a with
  | nil =>
    simp [renderCsvRows, splitSep, csvLineStep, parseNatD]
  | cons row rest ih =>
    obtain ⟨h1, h2⟩ := h row (by simp)
    have hdata : (renderCsvRows (row :: rest)).data =
        (row.1.data ++ ',' :: ((decNat row.2.1).data ++ ',' :: row.2.2.data)) ++
          '\n' :: (renderCsvRows rest).data := by
      simp [renderCsvRows, String.data_append]
    have hline : ∀ c ∈ row.1.data ++ ',' :: ((decNat row.2.1).data ++ ',' :: row.2.2.data),
        c ≠ '\n' := by
      intro c hc
      simp only [List.mem_append, List.mem_cons] at hc
      rcases hc with hc | rfl | hc
      · exact (h1 c hc).2
      · decide
      · rcases hc with hc | rfl | hc
        · exact (clean_decNat row.2.1 c hc).2
        · decide
        · exact (h2 c hc).2
    rw [hdata, splitSep_append '\n' _ _ hline, List.foldl_cons]
    have hstep : csvLineStep a (row.1.data ++ ',' :: ((decNat row.2.1).data ++ ',' :: row.2.2.data))
        = a + row.2.1 := csvLineStep_row a row.1 row.2.1 row.2.2 h1 h2
    rw [hstep, ih (fun q hq => h q (by simp [hq]))]
    simp
    omega

/-- The `csv_data` fixture invariant: the declared running total equals the
sum of the `Sales` values actually present in the emitted CSV text, for
every possible state of the random generator. -/
theorem csvHeader_render_data (rows : List (String × ℕ × String)) :
    ("Product,Sales,Region\n" ++ renderCsvRows rows).data =
      "Product,Sales,Region".data ++ '\n' :: (renderCsvRows rows).data := by
  have hlit : "Product,Sales,Region\n".data = "Product,Sales,Region".data ++ ['\n'] := by
    decide
  rw [String.data_append, hlit, List.append_assoc, List.singleton_append]

theorem generateCsvData_parse (r : PyRng) :
    parseCsvSalesSum (generateCsvData r).1 = (generateCsvData r).2 := by
  unfold generateCsvData
  dsimp only
  set s := PyRng.shuffle csvProducts "" r with hs
  set k := PyRng.randint 2 4 s.2 with hk
  set rows := (csvRowsAux (s.1.take k.1) k.2).1 with hrows
  have hclean : ∀ row ∈ rows, cleanStr row.1 ∧ cleanStr row.2.2 := by
    rw [hrows]
    apply csvRowsAux_clean
    intro p hp
    exact shuffle_pred clean_products clean_empty r p (List.mem_of_mem_take hp)
  have hhdr : ∀ c ∈ "Product,Sales,Region".data, c ≠ '\n' := by decide
  unfold parseCsvSalesSum
  rw [csvHeader_render_data rows, splitSep_append '\n' _ _ hhdr]
  simpa using parse_render rows hclean 0

/-- An attachment descriptor (`name` + `url`), as stored in templates and
produced in task instances. -/
structure AttachmentT where
  name : String
  url : String
deriving DecidableEq

/-- `TaskTemplate.__init__`: the per-round configuration a template
carries. -/
structure TaskTemplate where
  template_id : String
  name : String
  description : String
  brief_template : String
  checks_template : List String
  attachments_template : List AttachmentT
  round2_brief_template : String
  round2_checks_template : List String
  round2_attachments_template : List AttachmentT
deriving DecidableEq

/-- The dict `TaskTemplate.generate_task` returns. -/
structure TaskInstance where
  task_id : String
  round : ℕ
  nonce : String
  brief : String
  checks : List String
  attachments : List AttachmentT
  evaluation_url : String
deriving DecidableEq

/-- `TaskTemplate._get_result_value`: the `_result_cache` is threaded
explicitly as an `Option ℕ` (the cache is cleared at the start of every
`generate_task` call). -/
def getResultValue (t : TaskTemplate) (seed : String) (rng : PyRng) (cache : Option ℕ) :
    ℕ × PyRng × Option ℕ :=
  match cache with
  | some v => (v, rng, some v)
  | Option.none =>
    if strContains (pyLower t.brief_template) "sales" then
      let total := (generateCsvData (pyRandom seed)).2
      (total, rng, some total)
    else
      let vr := PyRng.randint 1000 9999 rng
      (vr.1, vr.2, some vr.1)

/-- `TaskTemplate._process_template`. -/
def processTemplate (t : TaskTemplate) (template seed : String) (rng : PyRng)
    (cache : Option ℕ) : String × PyRng × Option ℕ :=
  let processed := strReplace template "\x7bseed\x7d" (strTake seed 8)
  if strContains processed "\x7bresult\x7d" then
    let rrc := getResultValue t seed rng cache
    (strReplace processed "\x7bresult\x7d" (decNat rrc.1), rrc.2.1, rrc.2.2)
  else (processed, rng, cache)

/-- `TaskTemplate._process_checks_template`. -/
def processChecksTemplate (t : TaskTemplate) (checks : List String) (seed : String)
    (rng : PyRng) (cache : Option ℕ) : List String × PyRng × Option ℕ :=
  match checks with
  | [] => ([], rng, cache)
  | c :: cs =>
    let processed := strReplace c "\x7bseed\x7d" (strTake seed 8)
    let step : String × PyRng × Option ℕ :=
      if strContains processed "\x7bresult\x7d" then
        let rrc := getResultValue t seed rng cache
        (strReplace processed "\x7bresult\x7d" (decNat rrc.1), rrc.2.1, rrc.2.2)
      else (processed, rng, cache)
    let rest := processChecksTemplate t cs seed step.2.1 step.2.2
    (step.1 :: rest.1, rest.2.1, rest.2.2)

/-- `json.dumps` of the `"json"` fixture dict.  The currency table is fixed,
and generated seeds/timestamps contain no JSON-special characters, so no
string escaping is modelled.  (This branch of attachment processing is in
fact unreachable — proved below.) -/
def jsonDumps (j : JsonFixture) : String :=
  "\x7b\"currencies\": \x7b\"USD\": 1.0, \"EUR\": 0.85, \"GBP\": 0.73, \"JPY\": 110.0, \"CAD\": 1.25\x7d, \"metadata\": \x7b\"seed\": \"" ++
    j.seed ++ "\", \"generated_at\": \"" ++ j.generated_at ++ "\"\x7d\x7d"

/-- One iteration of `TaskTemplate._process_attachments_template` (the method
does not consume the shared `rng`: every fixture call builds a fresh
`random.Random(seed)`). -/
def processAttachment (now seed : String) (a : AttachmentT) : AttachmentT :=
  if a.url ≠ "" then
    if strContains a.url "\x7bseed\x7d" || strLeads a.url "data:text/csv;base64,\x7bseed\x7d" then
      { a with url := "data:text/csv;base64," ++ base64encode (generateCsvData (pyRandom seed)).1 }
    else if strLeads a.url "data:text/markdown;base64,\x7bseed\x7d" then
      { a with url := "data:text/markdown;base64," ++ base64encode (markdownContent now seed) }
    else if strLeads a.url "data:application/json;base64,\x7bseed\x7d" then
      { a with url := "data:application/json;base64," ++ base64encode (jsonDumps ⟨jsonCurrencies, seed, now⟩) }
    else a
  else a

/-- `TaskTemplate._process_attachments_template`. -/
def processAttachmentsTemplate (now seed : String) (l : List AttachmentT) : List AttachmentT :=
  l.map (processAttachment now seed)

/-- The evaluation-URL fallback `generate_task` computes when no explicit
URL is passed (standalone `Config`: `API_HOST=http://localhost`,
`EVAL_SERVER_PORT=5001`). -/
def defaultEvaluationUrl : String := "http://localhost:5001/api/evaluate"

/-- Task id and nonce generation plus assembly of the returned dict
(`uuid.uuid7` does not exist in the deployed CPython, so `uuid.uuid4` runs;
its 16 `os.urandom` bytes are the explicit `entropy`). -/
def taskEpilogue (t : TaskTemplate) (seed : String) (round_num : ℕ)
    (evaluation_url : Option String) (entropy : ℕ) (brief : String)
    (checks : List String) (attachments : List AttachmentT) : TaskInstance :=
  let task_suffix := strTake (md5hexStr (t.template_id ++ ":" ++ seed)) 5
  { task_id := t.template_id ++ "-" ++ task_suffix
    round := round_num
    nonce := uuid4From entropy
    brief := brief
    checks := checks
    attachments := attachments
    evaluation_url :=
      match evaluation_url with
      | some u => u
      | Option.none => defaultEvaluationUrl }

/-- `TaskTemplate.generate_task(seed, round_num, evaluation_url)`.  The wall
clock and the fresh UUID entropy are explicit; a raised `ValueError` becomes
`Except.error` with the exception's message. -/
def TaskTemplate.generate_task (t : TaskTemplate) (seed : String) (round_num : ℕ)
    (evaluation_url : Option String) (now : String) (entropy : ℕ) :
    Except String TaskInstance :=
  if round_num = 1 then
    Except.ok (taskEpilogue t seed round_num evaluation_url entropy
      (processTemplate t t.brief_template seed (pyRandom seed) Option.none).1
      (processChecksTemplate t t.checks_template seed
        (processTemplate t t.brief_template seed (pyRandom seed) Option.none).2.1
        (processTemplate t t.brief_template seed (pyRandom seed) Option.none).2.2).1
      (processAttachmentsTemplate now seed t.attachments_template))
  else if round_num = 2 then
    if t.round2_brief_template = "" then
      Except.error ("Round 2 not configured for template " ++ t.template_id)
    else
      Except.ok (taskEpilogue t seed round_num evaluation_url entropy
        (processTemplate t t.round2_brief_template seed (pyRandom seed) Option.none).1
        (processChecksTemplate t t.round2_checks_template seed
          (processTemplate t t.round2_brief_template seed (pyRandom seed) Option.none).2.1
          (processTemplate t t.round2_brief_template seed (pyRandom seed) Option.none).2.2).1
        (processAttachmentsTemplate now seed
          (if t.round2_attachments_template.isEmpty then [] else t.round2_attachments_template)))
  else Except.error ("Invalid round number: " ++ decNat round_num)

/-- The `sum-of-sales` built-in template (literal braces of the source are
written with their character codes). -/
def sumOfSalesTemplate : TaskTemplate :=
  { template_id := "sum-of-sales"
    name := "Sales Summary Application"
    description := "Create an app that processes CSV data and displays sales summaries"
    brief_template := "Publish a single-page site that fetches data.csv from attachments, sums its sales column, sets the title to \"Sales Summary \x7bseed\x7d\", displays the total inside #total-sales, and loads Bootstrap 5 from jsdelivr."
    checks_template :=
      ["Repo has MIT license",
       "README.md is professional",
       "js: document.title === `Sales Summary \x7bseed\x7d`",
       "js: !!document.querySelector(\"link[href*=\x27bootstrap\x27]\")",
       "js: Math.abs(parseFloat(document.querySelector(\"#total-sales\").textContent) - \x7bresult\x7d) < 0.01"]
    attachments_template := [{ name := "data.csv", url := "data:text/csv;base64,\x7bseed\x7d" }]
    round2_brief_template := "Add a Bootstrap table #product-sales that lists each product with its total sales and keeps #total-sales accurate after render."
    round2_checks_template :=
      ["js: document.querySelectorAll(\"#product-sales tbody tr\").length >= 1",
       "js: (() => \x7b const rows = [...document.querySelectorAll(\"#product-sales tbody tr td:last-child\")]; const sum = rows.reduce((acc, cell) => acc + parseFloat(cell.textContent), 0); return Math.abs(sum - \x7bresult\x7d) < 0.01; \x7d)()"]
    round2_attachments_template := [] }

/-- The `markdown-to-html` built-in template. -/
def markdownToHtmlTemplate : TaskTemplate :=
  { template_id := "markdown-to-html"
    name := "Markdown to HTML Converter"
    description := "Create an app that converts Markdown to HTML with syntax highlighting"
    brief_template := "Publish a static page that converts input.md from attachments to HTML with marked, renders it inside #markdown-output, and loads highlight.js for code blocks."
    checks_template :=
      ["Repo has MIT license",
       "README.md is professional",
       "js: !!document.querySelector(\"script[src*=\x27marked\x27]\")",
       "js: !!document.querySelector(\"script[src*=\x27highlight.js\x27]\") || !!document.querySelector(\"link[href*=\x27highlight.js\x27]\")",
       "js: document.querySelector(\"#markdown-output\").innerHTML.includes(\"<h\")"]
    attachments_template := [{ name := "input.md", url := "data:text/markdown;base64,\x7bseed\x7d" }]
    round2_brief_template := "Add tabs #markdown-tabs that switch between rendered HTML in #markdown-output and the original Markdown in #markdown-source while keeping content in sync."
    round2_checks_template :=
      ["js: document.querySelectorAll(\"#markdown-tabs button\").length >= 2",
       "js: document.querySelector(\"#markdown-source\").textContent.trim().length > 0"]
    round2_attachments_template := [] }

/-- The `github-user-created` built-in template. -/
def githubUserCreatedTemplate : TaskTemplate :=
  { template_id := "github-user-created"
    name := "GitHub User Information"
    description := "Create an app that fetches and displays GitHub user information"
    brief_template := "Publish a Bootstrap page with form id=\"github-user-\x7bseed\x7d\" that fetches a GitHub username, optionally uses ?token=, and displays the account creation date in YYYY-MM-DD UTC inside #github-created-at."
    checks_template :=
      ["Repo has MIT license",
       "README.md is professional",
       "js: document.querySelector(\"#github-user-\x7bseed\x7d\").tagName === \"FORM\"",
       "js: !!document.querySelector(\"script\").textContent.includes(\"https://api.github.com/users/\")"]
    attachments_template := []
    round2_brief_template := "Show an aria-live alert #github-status that reports when a lookup starts, succeeds, or fails."
    round2_checks_template :=
      ["js: document.querySelector(\"#github-status\").getAttribute(\"aria-live\") === \"polite\"",
       "js: !!document.querySelector(\"script\").textContent.includes(\"github-status\")"]
    round2_attachments_template := [] }

/-- The registry contents after `TaskGenerator._load_default_templates`. -/
def defaultTemplates : List TaskTemplate :=
  [sumOfSalesTemplate, markdownToHtmlTemplate, githubUserCreatedTemplate]

theorem hasSeg_mem {pat l : List Char} (h : hasSeg pat l = true) : ∀ c ∈ pat, c ∈ l := by
  rw [hasSeg_iff] at h
  obtain ⟨a, b, rfl⟩ := h
  intro c hc
  simp [hc]

theorem hasSeg_false_of_brace {pat l : List Char} (hpat : '\x7b' ∈ pat)
    (hl : '\x7b' ∉ l) : hasSeg pat l = false := by
  by_contra hne
  have htrue : hasSeg pat l = true := by
    revert hne; cases hasSeg pat l <;> simp
  exact hl (hasSeg_mem htrue _ hpat)

theorem replaceSegF_skip (pat rep : List Char) :
    ∀ (X B : List Char), replaceSegF pat rep X.length (X ++ B) = replaceSegF pat rep 0 B := by
  intro X
  induction X with
  | nil => intro B; rfl
  | cons x xs ih => intro B; simpa [replaceSegF] using ih B

theorem leadsList_false_of_head {pat l : List Char} {c : Char} {rest : List Char}
    (hl : l = c :: rest) (hpat : ∃ p', pat = '\x7b' :: p') (hc : c ≠ '\x7b') :
    leadsList pat l = false := by
  obtain ⟨p', rfl⟩ := hpat
  subst hl
  simp only [leadsList, Bool.and_eq_false_imp, decide_eq_true_eq]
  intro h
  exact absurd h.symm hc

theorem replaceSegF_no_occur (pat rep : List Char) (l : List Char)
    (h : hasSeg pat l = false) : replaceSegF pat rep 0 l = l := by
  induction l with
  | nil => rfl
  | cons c rest ih =>
    have hlead : leadsList pat (c :: rest) = false := by
      have := h
      unfold hasSeg at this
      cases hL : leadsList pat (c :: rest) <;> simp_all
    have hrest : hasSeg pat rest = false := by
      have := h
      unfold hasSeg at this
      cases hR : hasSeg pat rest <;> simp_all
    simp [replaceSegF, hlead, ih hrest]

theorem replaceSegF_append_no_brace {pat : List Char} (rep : List Char)
    (hpat : ∃ p', pat = '\x7b' :: p') :
    ∀ (A l : List Char), '\x7b' ∉ A →
      replaceSegF pat rep 0 (A ++ l) = A ++ replaceSegF pat rep 0 l := by
  intro A
  induction A with
  | nil => intro l _; rfl
  | cons c cs ih =>
    intro l hA
    have hc : c ≠ '\x7b' := fun hcc => hA (by simp [hcc])
    have hlead : leadsList pat (c :: (cs ++ l)) = false := by
      have := leadsList_false_of_head (l := c :: (cs ++ l)) rfl hpat hc
      simpa using this
    have hih := ih l (fun hm => hA (by simp [hm]))
    simp [replaceSegF, hlead, hih]

theorem replaceSeg_single_occurrence {pat : List Char} (rep A B : List Char)
    (hpat : ∃ p', pat = '\x7b' :: p')
    (hA : '\x7b' ∉ A) (hB : '\x7b' ∉ B) :
    replaceSeg pat rep (A ++ (pat ++ B)) = A ++ (rep ++ B) := by
  obtain ⟨p', rfl⟩ := hpat
  unfold replaceSeg
  rw [replaceSegF_append_no_brace rep ⟨p', rfl⟩ A _ hA]
  congr 1
  have hlead : leadsList ('\x7b' :: p') ('\x7b' :: (p' ++ B)) = true := by
    rw [← List.cons_append]
    exact (leadsList_iff _ _).mpr ⟨B, rfl⟩
  have hnofinal := replaceSegF_no_occur ('\x7b' :: p') rep B
    (hasSeg_false_of_brace (by simp) hB)
  have hskip := replaceSegF_skip ('\x7b' :: p') rep p' B
  rw [List.cons_append, replaceSegF, hlead]
  simp [hskip, hnofinal]

theorem strReplace_no_occurrence (s pat rep : String) (h : hasSeg pat.data s.data = false) :
    strReplace s pat rep = s := by
  unfold strReplace replaceSeg
  rw [replaceSegF_no_occur _ _ _ h]

/-- Brief of a `generate_task` result (empty string when the call raised). -/
def taskBrief (r : Except String TaskInstance) : String :=
  match r with
  | Except.ok t => t.brief
  | Except.error _ => ""

/-- Checks of a `generate_task` result. -/
def taskChecks (r : Except String TaskInstance) : List String :=
  match r with
  | Except.ok t => t.checks
  | Except.error _ => []

/-- Attachments of a `generate_task` result. -/
def taskAttachments (r : Except String TaskInstance) : List AttachmentT :=
  match r with
  | Except.ok t => t.attachments
  | Except.error _ => []

/-- Nonce of a `generate_task` result. -/
def taskNonce (r : Except String TaskInstance) : String :=
  match r with
  | Except.ok t => t.nonce
  | Except.error _ => ""

/-- Whether `generate_task` returned without raising. -/
def taskIsOk (r : Except String TaskInstance) : Bool :=
  match r with
  | Except.ok _ => true
  | Except.error _ => false

theorem strExt {s t : String} (h : s.data = t.data) : s = t := by
  cases s; cases t; exact congrArg String.mk h

/-- CLAIM C2 (amended): the kinds that do not read the clock — `string`,
`number`, `csv_data`, and unknown kinds — are byte-deterministic in
`(seed, kind, length)`: the clock reading cannot influence them. -/
theorem c2_kind_determinism (seed kind : String) (len : ℕ) (now₁ now₂ : String)
    (h₁ : kind ≠ "markdown") (h₂ : kind ≠ "json") :
    generate_random_data now₁ seed kind len = generate_random_data now₂ seed kind len := by
  unfold generate_random_data
  split_ifs <;> simp_all

/-- CLAIM C2 (counterexample): the `markdown` and `json` fixtures embed
`datetime.now().isoformat()`, so two calls with identical
`(seed, kind, length)` but different clock readings return different
output — the determinism contract fails for those kinds. -/
theorem c2_time_counterexample :
    generate_random_data "2024-01-01T00:00:00" "s" "markdown" 10 ≠
      generate_random_data "2024-01-01T00:00:01" "s" "markdown" 10 ∧
    generate_random_data "2024-01-01T00:00:00" "s" "json" 10 ≠
      generate_random_data "2024-01-01T00:00:01" "s" "json" 10 := by
  constructor
  · decide
  · intro h
    have e1 : generate_random_data "2024-01-01T00:00:00" "s" "json" 10 =
        RandomData.jsonData ⟨jsonCurrencies, "s", "2024-01-01T00:00:00"⟩ := rfl
    have e2 : generate_random_data "2024-01-01T00:00:01" "s" "json" 10 =
        RandomData.jsonData ⟨jsonCurrencies, "s", "2024-01-01T00:00:01"⟩ := rfl
    rw [e1, e2] at h
    injection h with hj
    have := congrArg JsonFixture.generated_at hj
    exact absurd this (by decide)

/-- Witness for `c2_kind_determinism` at a concrete kind. -/
theorem c2_kind_determinism_witness :
    ("csv_data" : String) ≠ "markdown" ∧ ("csv_data" : String) ≠ "json" ∧
      generate_random_data "2024-01-01T00:00:00" "s" "csv_data" 10 =
        generate_random_data "2024-01-01T00:00:01" "s" "csv_data" 10 :=
  ⟨by decide, by decide,
    c2_kind_determinism "s" "csv_data" 10 "2024-01-01T00:00:00" "2024-01-01T00:00:01"
      (by decide) (by decide)⟩

theorem generate_seed_data (email b : String) :
    (generate_seed email b).data =
      (bytesToHex (sha256Digest (strBytes (seedData email b)))).take 16 := rfl

theorem generate_seed_hex (email b : String) :
    ∀ c ∈ (generate_seed email b).data, c ∈ hexCharList := by
  intro c hc
  rw [generate_seed_data] at hc
  exact bytesToHex_mem_hex _ c (List.mem_of_mem_take hc)

theorem generate_seed_len (email b : String) : (generate_seed email b).data.length = 16 := by
  rw [generate_seed_data, List.length_take, length_bytesToHex, length_sha256Digest]
  rfl

/-- Numeric value of one hex digit character. -/
def hexVal (c : Char) : ℕ := if c.toNat < 58 then c.toNat - 48 else c.toNat - 87

theorem hexVal_lt {c : Char} (h : c ∈ hexCharList) : hexVal c < 16 := by
  fin_cases h <;> decide

theorem hexVal_injOn {c₁ c₂ : Char} (h₁ : c₁ ∈ hexCharList) (h₂ : c₂ ∈ hexCharList)
    (h : hexVal c₁ = hexVal c₂) : c₁ = c₂ := by
  fin_cases h₁ <;> fin_cases h₂ <;> first | rfl | exact absurd h (by decide)

/-- Base-16 value of a hex character list (little-endian by position). -/
def encodeHexList : List Char → ℕ
  | [] => 0
  | c :: rest => hexVal c + 16 * encodeHexList rest

theorem encodeHexList_lt (l : List Char) (h : ∀ c ∈ l, c ∈ hexCharList) :
    encodeHexList l < 16 ^ l.length := by
  induction l with
  | nil => simp [encodeHexList]
  | cons c rest ih =>
    have hc := hexVal_lt (h c (by simp))
    have hr := ih (fun d hd => h d (by simp [hd]))
    simp only [encodeHexList, List.length_cons, pow_succ]
    calc hexVal c + 16 * encodeHexList rest
        < 16 + 16 * encodeHexList rest := by omega
      _ ≤ 16 * (encodeHexList rest + 1) := by ring_nf; omega
      _ ≤ 16 * 16 ^ rest.length := by
          have : encodeHexList rest + 1 ≤ 16 ^ rest.length := hr
          exact Nat.mul_le_mul_left 16 this
      _ = 16 ^ rest.length * 16 := by ring

theorem encodeHexList_injOn : ∀ (l₁ l₂ : List Char), l₁.length = l₂.length →
    (∀ c ∈ l₁, c ∈ hexCharList) → (∀ c ∈ l₂, c ∈ hexCharList) →
    encodeHexList l₁ = encodeHexList l₂ → l₁ = l₂ := by
  intro l₁
  induction l₁ with
  | nil =>
    intro l₂ hlen _ _ _
    cases l₂ with
    | nil => rfl
    | cons => simp at hlen
  | cons c₁ r₁ ih =>
    intro l₂ hlen h₁ h₂ henc
    cases l₂ with
    | nil => simp at hlen
    | cons c₂ r₂ =>
      have hc₁ := hexVal_lt (h₁ c₁ (by simp))
      have hc₂ := hexVal_lt (h₂ c₂ (by simp))
      simp only [encodeHexList] at henc
      have hv : hexVal c₁ = hexVal c₂ := by omega
      have hr : encodeHexList r₁ = encodeHexList r₂ := by omega
      have hch := hexVal_injOn (h₁ c₁ (by simp)) (h₂ c₂ (by simp)) hv
      have hrl := ih r₂ (by simpa using hlen)
        (fun d hd => h₁ d (by simp [hd])) (fun d hd => h₂ d (by simp [hd])) hr
      rw [hch, hrl]

/-- CLAIM C9 (amended): `generate_seed` is a pure function of
`(identity, bucket)` — the embedding gives it no other inputs — and distinct
buckets always feed distinct strings `identity:bucket` into the digest; its
output is the 16-character truncated hex digest.  (Distinctness of the
truncated digests themselves is not guaranteed; see the counterexample.) -/
theorem c9_seed_determinism (email b₁ b₂ : String) (h : b₁ ≠ b₂) :
    seedData email b₁ ≠ seedData email b₂ ∧
      (generate_seed email b₁).length = 16 ∧ (generate_seed email b₂).length = 16 := by
  refine ⟨?_, generate_seed_len email b₁, generate_seed_len email b₂⟩
  intro hc
  apply h
  unfold seedData at hc
  have hdata := congrArg String.data hc
  rw [String.data_append, String.data_append] at hdata
  exact strExt (List.append_cancel_left hdata)

/-- Witness for `c9_seed_determinism` at concrete buckets. -/
theorem c9_seed_determinism_witness :
    ("2024-01-15-09" : String) ≠ "2024-01-15-10" ∧
      (seedData "alice@example.com" "2024-01-15-09" ≠ seedData "alice@example.com" "2024-01-15-10" ∧
        (generate_seed "alice@example.com" "2024-01-15-09").length = 16 ∧
        (generate_seed "alice@example.com" "2024-01-15-10").length = 16) :=
  ⟨by decide, c9_seed_determinism "alice@example.com" "2024-01-15-09" "2024-01-15-10" (by decide)⟩

/-- CLAIM C9 (counterexample): "changing the bucket changes the output" is
false as a universal statement — the seed is a 16-hex-character truncation,
so infinitely many buckets map into a finite set of outputs and two distinct
buckets must collide. -/
theorem c9_bucket_collision :
    ∃ b₁ b₂ : String, b₁ ≠ b₂ ∧ generate_seed "a" b₁ = generate_seed "a" b₂ := by
  have hbound : ∀ n : ℕ, encodeHexList (generate_seed "a" ⟨List.replicate n 'a'⟩).data < 16 ^ 16 := by
    intro n
    have := encodeHexList_lt (generate_seed "a" ⟨List.replicate n 'a'⟩).data
      (generate_seed_hex "a" ⟨List.replicate n 'a'⟩)
    rwa [generate_seed_len] at this
  obtain ⟨n, m, hnm, hf⟩ := Finite.exists_ne_map_eq_of_infinite
    (fun n : ℕ => (⟨encodeHexList (generate_seed "a" ⟨List.replicate n 'a'⟩).data,
      hbound n⟩ : Fin (16 ^ 16)))
  refine ⟨⟨List.replicate n 'a'⟩, ⟨List.replicate m 'a'⟩, ?_, ?_⟩
  · intro hc
    apply hnm
    have := congrArg (fun s : String => s.data.length) hc
    simpa using this
  · have henc : encodeHexList (generate_seed "a" ⟨List.replicate n 'a'⟩).data
        = encodeHexList (generate_seed "a" ⟨List.replicate m 'a'⟩).data :=
      congrArg Fin.val hf
    have hdata := encodeHexList_injOn _ _
      (by rw [generate_seed_len, generate_seed_len])
      (generate_seed_hex _ _) (generate_seed_hex _ _) henc
    exact strExt hdata

/-- CLAIM C7: instantiating round 2 on a template whose round-2 brief
template is absent raises `ValueError` naming the template; no task built
from round-1 definitions is returned. -/
theorem c7_round2_missing (t : TaskTemplate) (seed : String) (url : Option String)
    (now : String) (e : ℕ) (h : t.round2_brief_template = "") :
    TaskTemplate.generate_task t seed 2 url now e =
      Except.error ("Round 2 not configured for template " ++ t.template_id) := by
  unfold TaskTemplate.generate_task
  simp [h]

/-- Witness for `c7_round2_missing` on a concrete template without round-2
configuration. -/
theorem c7_round2_missing_witness :
    ({ githubUserCreatedTemplate with round2_brief_template := "" } : TaskTemplate).round2_brief_template = "" ∧
      TaskTemplate.generate_task
          { githubUserCreatedTemplate with round2_brief_template := "" } "abc123" 2 Option.none "t" 0 =
        Except.error ("Round 2 not configured for template github-user-created") :=
  ⟨rfl, c7_round2_missing _ "abc123" Option.none "t" 0 rfl⟩

/-- Attachment processing never reads the clock: the `markdown`/`json`
attachment branches are unreachable, because any URL that starts with their
`data:...;base64,{seed}` prefixes already contains `{seed}` and is therefore
captured by the CSV branch (whose payload depends on the seed alone). -/
theorem processAttachment_now (now₁ now₂ seed : String) (a : AttachmentT) :
    processAttachment now₁ seed a = processAttachment now₂ seed a := by
  unfold processAttachment
  by_cases hu : a.url = ""
  · simp [hu]
  · rw [if_pos hu, if_pos hu]
    cases hc : strContains a.url "\x7bseed\x7d" with
    | true => simp [hc]
    | false =>
      have hcsv : strLeads a.url "data:text/csv;base64,\x7bseed\x7d" = false := by
        by_contra h'
        have ht : strLeads a.url "data:text/csv;base64,\x7bseed\x7d" = true := by
          revert h'; cases strLeads a.url "data:text/csv;base64,\x7bseed\x7d" <;> simp
        have := hasSeg_of_leadsList (q := "\x7bseed\x7d".data) ht (by decide)
        rw [show hasSeg "\x7bseed\x7d".data a.url.data = strContains a.url "\x7bseed\x7d" from rfl, hc] at this
        exact absurd this (by decide)
      have hmd : strLeads a.url "data:text/markdown;base64,\x7bseed\x7d" = false := by
        by_contra h'
        have ht : strLeads a.url "data:text/markdown;base64,\x7bseed\x7d" = true := by
          revert h'; cases strLeads a.url "data:text/markdown;base64,\x7bseed\x7d" <;> simp
        have := hasSeg_of_leadsList (q := "\x7bseed\x7d".data) ht (by decide)
        rw [show hasSeg "\x7bseed\x7d".data a.url.data = strContains a.url "\x7bseed\x7d" from rfl, hc] at this
        exact absurd this (by decide)
      have hjs : strLeads a.url "data:application/json;base64,\x7bseed\x7d" = false := by
        by_contra h'
        have ht : strLeads a.url "data:application/json;base64,\x7bseed\x7d" = true := by
          revert h'; cases strLeads a.url "data:application/json;base64,\x7bseed\x7d" <;> simp
        have := hasSeg_of_leadsList (q := "\x7bseed\x7d".data) ht (by decide)
        rw [show hasSeg "\x7bseed\x7d".data a.url.data = strContains a.url "\x7bseed\x7d" from rfl, hc] at this
        exact absurd this (by decide)
      simp [hc, hcsv, hmd, hjs]

set_option maxRecDepth 4000 in
theorem processAttachmentsTemplate_now (now₁ now₂ seed : String) (l : List AttachmentT) :
    processAttachmentsTemplate now₁ seed l = processAttachmentsTemplate now₂ seed l := by
  unfold processAttachmentsTemplate
  induction l with
  | nil => rfl
  | cons a rest ih =>
    rw [List.map_cons, List.map_cons, processAttachment_now now₁ now₂ seed a, ih]

theorem taskEpilogue_brief (t : TaskTemplate) (seed : String) (r : ℕ) (url : Option String)
    (e : ℕ) (b : String) (c : List String) (a : List AttachmentT) :
    (taskEpilogue t seed r url e b c a).brief = b := rfl

theorem taskEpilogue_checks (t : TaskTemplate) (seed : String) (r : ℕ) (url : Option String)
    (e : ℕ) (b : String) (c : List String) (a : List AttachmentT) :
    (taskEpilogue t seed r url e b c a).checks = c := rfl

theorem taskEpilogue_attachments (t : TaskTemplate) (seed : String) (r : ℕ) (url : Option String)
    (e : ℕ) (b : String) (c : List String) (a : List AttachmentT) :
    (taskEpilogue t seed r url e b c a).attachments = a := rfl

theorem taskEpilogue_nonce (t : TaskTemplate) (seed : String) (r : ℕ) (url : Option String)
    (e : ℕ) (b : String) (c : List String) (a : List AttachmentT) :
    (taskEpilogue t seed r url e b c a).nonce = uuid4From e := rfl

theorem taskBrief_ok (x : TaskInstance) : taskBrief (Except.ok x) = x.brief := rfl

theorem taskChecks_ok (x : TaskInstance) : taskChecks (Except.ok x) = x.checks := rfl

theorem taskAttachments_ok (x : TaskInstance) : taskAttachments (Except.ok x) = x.attachments := rfl

theorem taskNonce_ok (x : TaskInstance) : taskNonce (Except.ok x) = x.nonce := rfl

/-- CLAIM C3: two `generate_task` calls with the same `(seed, round)` on the
same template succeed together and agree on brief, ordered check list and
attachments (whatever the clock reads — attachment payloads depend on the
seed alone), while the nonces differ whenever the two fresh `uuid4` entropy
draws differ on the 122 bits the UUID keeps. -/
theorem c3_instantiate_determinism (t : TaskTemplate) (seed : String) (round_num : ℕ)
    (url : Option String) (now₁ now₂ : String) (e₁ e₂ : ℕ)
    (hround : round_num = 1 ∨ (round_num = 2 ∧ t.round2_brief_template ≠ ""))
    (hent : uuidMask e₁ ≠ uuidMask e₂) :
    taskIsOk (TaskTemplate.generate_task t seed round_num url now₁ e₁) = true ∧
    taskIsOk (TaskTemplate.generate_task t seed round_num url now₂ e₂) = true ∧
    taskBrief (TaskTemplate.generate_task t seed round_num url now₁ e₁) =
      taskBrief (TaskTemplate.generate_task t seed round_num url now₂ e₂) ∧
    taskChecks (TaskTemplate.generate_task t seed round_num url now₁ e₁) =
      taskChecks (TaskTemplate.generate_task t seed round_num url now₂ e₂) ∧
    taskAttachments (TaskTemplate.generate_task t seed round_num url now₁ e₁) =
      taskAttachments (TaskTemplate.generate_task t seed round_num url now₂ e₂) ∧
    taskNonce (TaskTemplate.generate_task t seed round_num url now₁ e₁) ≠
      taskNonce (TaskTemplate.generate_task t seed round_num url now₂ e₂) := by
  have hnonce := uuid4From_inj hent
  rcases hround with rfl | ⟨rfl, h2⟩
  · have hgen : ∀ (now : String) (e : ℕ), TaskTemplate.generate_task t seed 1 url now e =
        Except.ok (taskEpilogue t seed 1 url e
          (processTemplate t t.brief_template seed (pyRandom seed) Option.none).1
          (processChecksTemplate t t.checks_template seed
            (processTemplate t t.brief_template seed (pyRandom seed) Option.none).2.1
            (processTemplate t t.brief_template seed (pyRandom seed) Option.none).2.2).1
          (processAttachmentsTemplate now seed t.attachments_template)) := by
      intro now e
      rfl
    rw [hgen now₁ e₁, hgen now₂ e₂]
    refine ⟨rfl, rfl, ?_, ?_, ?_, ?_⟩
    · rw [taskBrief_ok, taskBrief_ok, taskEpilogue_brief, taskEpilogue_brief]
    · rw [taskChecks_ok, taskChecks_ok, taskEpilogue_checks, taskEpilogue_checks]
    · rw [taskAttachments_ok, taskAttachments_ok, taskEpilogue_attachments, taskEpilogue_attachments]
      exact processAttachmentsTemplate_now now₁ now₂ seed _
    · rw [taskNonce_ok, taskNonce_ok, taskEpilogue_nonce, taskEpilogue_nonce]
      exact hnonce
  · have hgen : ∀ (now : String) (e : ℕ), TaskTemplate.generate_task t seed 2 url now e =
        Except.ok (taskEpilogue t seed 2 url e
          (processTemplate t t.round2_brief_template seed (pyRandom seed) Option.none).1
          (processChecksTemplate t t.round2_checks_template seed
            (processTemplate t t.round2_brief_template seed (pyRandom seed) Option.none).2.1
            (processTemplate t t.round2_brief_template seed (pyRandom seed) Option.none).2.2).1
          (processAttachmentsTemplate now seed
            (if t.round2_attachments_template.isEmpty then [] else t.round2_attachments_template))) := by
      intro now e
      unfold TaskTemplate.generate_task
      rw [if_neg (by norm_num : ¬ (2 : ℕ) = 1), if_pos rfl, if_neg h2]
    rw [hgen now₁ e₁, hgen now₂ e₂]
    refine ⟨rfl, rfl, ?_, ?_, ?_, ?_⟩
    · rw [taskBrief_ok, taskBrief_ok, taskEpilogue_brief, taskEpilogue_brief]
    · rw [taskChecks_ok, taskChecks_ok, taskEpilogue_checks, taskEpilogue_checks]
    · rw [taskAttachments_ok, taskAttachments_ok, taskEpilogue_attachments, taskEpilogue_attachments]
      exact processAttachmentsTemplate_now now₁ now₂ seed _
    · rw [taskNonce_ok, taskNonce_ok, taskEpilogue_nonce, taskEpilogue_nonce]
      exact hnonce

/-- Witness for `c3_instantiate_determinism` at concrete inputs. -/
theorem c3_instantiate_determinism_witness :
    ((1 : ℕ) = 1 ∨ ((1 : ℕ) = 2 ∧ sumOfSalesTemplate.round2_brief_template ≠ "")) ∧
    uuidMask 0 ≠ uuidMask 1 ∧
    (taskIsOk (TaskTemplate.generate_task sumOfSalesTemplate "abc123" 1 Option.none "t1" 0) = true ∧
     taskIsOk (TaskTemplate.generate_task sumOfSalesTemplate "abc123" 1 Option.none "t2" 1) = true ∧
     taskBrief (TaskTemplate.generate_task sumOfSalesTemplate "abc123" 1 Option.none "t1" 0) =
       taskBrief (TaskTemplate.generate_task sumOfSalesTemplate "abc123" 1 Option.none "t2" 1) ∧
     taskChecks (TaskTemplate.generate_task sumOfSalesTemplate "abc123" 1 Option.none "t1" 0) =
       taskChecks (TaskTemplate.generate_task sumOfSalesTemplate "abc123" 1 Option.none "t2" 1) ∧
     taskAttachments (TaskTemplate.generate_task sumOfSalesTemplate "abc123" 1 Option.none "t1" 0) =
       taskAttachments (TaskTemplate.generate_task sumOfSalesTemplate "abc123" 1 Option.none "t2" 1) ∧
     taskNonce (TaskTemplate.generate_task sumOfSalesTemplate "abc123" 1 Option.none "t1" 0) ≠
       taskNonce (TaskTemplate.generate_task sumOfSalesTemplate "abc123" 1 Option.none "t2" 1)) :=
  ⟨Or.inl rfl, by decide,
    c3_instantiate_determinism sumOfSalesTemplate "abc123" 1 Option.none "t1" "t2" 0 1
      (Or.inl rfl) (by decide)⟩

/-- The side-channel total of the tabular fixture for a seed: this is the
value `{result}` substitutes for a sales-scenario template. -/
def salesResultValue (seed : String) : ℕ := (generateCsvData (pyRandom seed)).2

/-- The CSV text of the tabular fixture for a seed (the payload inlined into
the `data.csv` attachment). -/
def salesCsvContent (seed : String) : String := (generateCsvData (pyRandom seed)).1

theorem hex_no_brace {c : Char} (h : c ∈ hexCharList) : c ≠ '\x7b' := by
  fin_cases h <;> decide

theorem digit_no_brace {c : Char} (h : c.isDigit = true) : c ≠ '\x7b' := by
  intro hc; subst hc; exact absurd h (by decide)

theorem strTake_hex_no_brace {seed : String} (hseed : ∀ c ∈ seed.data, c ∈ hexCharList) :
    '\x7b' ∉ (strTake seed 8).data := fun hc =>
  hex_no_brace (hseed _ (List.mem_of_mem_take hc)) rfl

theorem decNat_no_brace (n : ℕ) : '\x7b' ∉ (decNat n).data := fun hc =>
  digit_no_brace (decNatAux_digits _ _ _ hc) rfl

theorem no_brace_append3 {A B rep : List Char} (hA : '\x7b' ∉ A) (hrep : '\x7b' ∉ rep)
    (hB : '\x7b' ∉ B) : '\x7b' ∉ A ++ (rep ++ B) := by
  intro h
  rcases List.mem_append.mp h with h' | h'
  · exact hA h'
  · rcases List.mem_append.mp h' with h'' | h''
    · exact hrep h''
    · exact hB h''

theorem strReplace_split (tmpl pat A B rep : String)
    (hpat : ∃ p', pat.data = '\x7b' :: p')
    (hsplit : tmpl.data = A.data ++ (pat.data ++ B.data))
    (hA : '\x7b' ∉ A.data) (hB : '\x7b' ∉ B.data) :
    (strReplace tmpl pat rep).data = A.data ++ (rep.data ++ B.data) := by
  show replaceSeg pat.data rep.data tmpl.data = _
  rw [hsplit]
  exact replaceSeg_single_occurrence rep.data A.data B.data hpat hA hB

theorem strContains_result_false (s : String) (h : '\x7b' ∉ s.data) :
    strContains s "\x7bresult\x7d" = false :=
  hasSeg_false_of_brace (by decide) h

theorem processChecksTemplate_nil (t : TaskTemplate) (seed : String) (rng : PyRng)
    (cache : Option ℕ) : processChecksTemplate t [] seed rng cache = ([], rng, cache) := rfl

theorem processChecks_cons_noresult (t : TaskTemplate) (cs : List String) (seed : String)
    (rng : PyRng) (cache : Option ℕ) (c c' : String)
    (hrep : strReplace c "\x7bseed\x7d" (strTake seed 8) = c')
    (hnores : strContains c' "\x7bresult\x7d" = false) :
    processChecksTemplate t (c :: cs) seed rng cache =
      (c' :: (processChecksTemplate t cs seed rng cache).1,
       (processChecksTemplate t cs seed rng cache).2.1,
       (processChecksTemplate t cs seed rng cache).2.2) := by
  simp only [processChecksTemplate, hrep, hnores]
  simp

theorem processChecks_cons_result (t : TaskTemplate) (cs : List String) (seed : String)
    (rng : PyRng) (cache : Option ℕ) (c c' : String) (res : ℕ) (rng' : PyRng)
    (cache' : Option ℕ)
    (hrep : strReplace c "\x7bseed\x7d" (strTake seed 8) = c')
    (hres : strContains c' "\x7bresult\x7d" = true)
    (hget : getResultValue t seed rng cache = (res, rng', cache')) :
    processChecksTemplate t (c :: cs) seed rng cache =
      (strReplace c' "\x7bresult\x7d" (decNat res) :: (processChecksTemplate t cs seed rng' cache').1,
       (processChecksTemplate t cs seed rng' cache').2.1,
       (processChecksTemplate t cs seed rng' cache').2.2) := by
  simp only [processChecksTemplate, hrep, hres, hget]
  simp

set_option maxRecDepth 16000 in
/-- CLAIM C4: the tabular fixture's declared total equals the sum of the
`Sales` values in its CSV rows, and for the `sum-of-sales` template the
value substituted for `{result}` in the generated assertions is exactly the
total of the `data.csv` attachment generated from the same seed.  (The seed
is a hex string, as `generate_seed` produces.) -/
theorem c4_sales_cross_check (seed now : String) (url : Option String) (e : ℕ)
    (hseed : ∀ c ∈ seed.data, c ∈ hexCharList) :
    parseCsvSalesSum (salesCsvContent seed) = salesResultValue seed ∧
    taskAttachments (TaskTemplate.generate_task sumOfSalesTemplate seed 1 url now e) =
      [⟨"data.csv", "data:text/csv;base64," ++ base64encode (salesCsvContent seed)⟩] ∧
    taskChecks (TaskTemplate.generate_task sumOfSalesTemplate seed 1 url now e) =
      ["Repo has MIT license",
       "README.md is professional",
       "js: document.title === `Sales Summary " ++ strTake seed 8 ++ "`",
       "js: !!document.querySelector(\"link[href*=\x27bootstrap\x27]\")",
       "js: Math.abs(parseFloat(document.querySelector(\"#total-sales\").textContent) - "
         ++ decNat (salesResultValue seed) ++ ") < 0.01"] := by
  have hgen : TaskTemplate.generate_task sumOfSalesTemplate seed 1 url now e =
      Except.ok (taskEpilogue sumOfSalesTemplate seed 1 url e
        (processTemplate sumOfSalesTemplate sumOfSalesTemplate.brief_template seed
          (pyRandom seed) Option.none).1
        (processChecksTemplate sumOfSalesTemplate sumOfSalesTemplate.checks_template seed
          (processTemplate sumOfSalesTemplate sumOfSalesTemplate.brief_template seed
            (pyRandom seed) Option.none).2.1
          (processTemplate sumOfSalesTemplate sumOfSalesTemplate.brief_template seed
            (pyRandom seed) Option.none).2.2).1
        (processAttachmentsTemplate now seed sumOfSalesTemplate.attachments_template)) := rfl
  refine ⟨generateCsvData_parse (pyRandom seed), ?_, ?_⟩
  · rw [hgen, taskAttachments_ok, taskEpilogue_attachments]
    have hatt : processAttachment now seed ⟨"data.csv", "data:text/csv;base64,\x7bseed\x7d"⟩ =
        ⟨"data.csv", "data:text/csv;base64," ++ base64encode (generateCsvData (pyRandom seed)).1⟩ := by
      unfold processAttachment
      rw [if_pos (by decide), if_pos (by decide)]
    show List.map (processAttachment now seed)
        [⟨"data.csv", "data:text/csv;base64,\x7bseed\x7d"⟩] = _
    rw [List.map_cons, List.map_nil, hatt]
    rfl
  · rw [hgen, taskChecks_ok, taskEpilogue_checks]
    -- the brief contains `{seed}` but not `{result}`, so it passes the rng
    -- and cache through untouched
    have hreplb : (strReplace sumOfSalesTemplate.brief_template "\x7bseed\x7d" (strTake seed 8)).data =
        ("Publish a single-page site that fetches data.csv from attachments, sums its sales column, sets the title to \"Sales Summary ").data ++
          ((strTake seed 8).data ++ ("\", displays the total inside #total-sales, and loads Bootstrap 5 from jsdelivr.").data) :=
      strReplace_split _ _ _ _ _ ⟨"seed\x7d".data, by decide⟩ (by decide) (by decide) (by decide)
    have hcontb : strContains (strReplace sumOfSalesTemplate.brief_template "\x7bseed\x7d"
        (strTake seed 8)) "\x7bresult\x7d" = false := by
      apply strContains_result_false
      rw [hreplb]
      exact no_brace_append3 (by decide) (strTake_hex_no_brace hseed) (by decide)
    have hbrief : (processTemplate sumOfSalesTemplate sumOfSalesTemplate.brief_template seed
        (pyRandom seed) Option.none).2 = (pyRandom seed, Option.none) := by
      simp only [processTemplate]
      rw [hcontb]
      simp
    have hbr1 : (processTemplate sumOfSalesTemplate sumOfSalesTemplate.brief_template seed
        (pyRandom seed) Option.none).2.1 = pyRandom seed := by rw [hbrief]
    have hbr2 : (processTemplate sumOfSalesTemplate sumOfSalesTemplate.brief_template seed
        (pyRandom seed) Option.none).2.2 = Option.none := by rw [hbrief]
    rw [hbr1, hbr2]
    -- per-check replacement facts
    have hid1 : strReplace "Repo has MIT license" "\x7bseed\x7d" (strTake seed 8) =
        "Repo has MIT license" := strReplace_no_occurrence _ _ _ (by decide)
    have hid2 : strReplace "README.md is professional" "\x7bseed\x7d" (strTake seed 8) =
        "README.md is professional" := strReplace_no_occurrence _ _ _ (by decide)
    have he3 : strReplace "js: document.title === `Sales Summary \x7bseed\x7d`" "\x7bseed\x7d"
        (strTake seed 8) = "js: document.title === `Sales Summary " ++ strTake seed 8 ++ "`" := by
      apply strExt
      rw [strReplace_split _ _ ("js: document.title === `Sales Summary ") ("`") _
        ⟨"seed\x7d".data, by decide⟩ (by decide) (by decide) (by decide)]
      simp [String.data_append, List.append_assoc]
    have hf3 : strContains ("js: document.title === `Sales Summary " ++ strTake seed 8 ++ "`")
        "\x7bresult\x7d" = false := by
      apply strContains_result_false
      rw [String.data_append, String.data_append]
      rw [List.append_assoc]
      exact no_brace_append3 (by decide) (strTake_hex_no_brace hseed) (by decide)
    have hid4 : strReplace "js: !!document.querySelector(\"link[href*=\x27bootstrap\x27]\")"
        "\x7bseed\x7d" (strTake seed 8) =
        "js: !!document.querySelector(\"link[href*=\x27bootstrap\x27]\")" :=
      strReplace_no_occurrence _ _ _ (by decide)
    have hid5 : strReplace "js: Math.abs(parseFloat(document.querySelector(\"#total-sales\").textContent) - \x7bresult\x7d) < 0.01"
        "\x7bseed\x7d" (strTake seed 8) =
        "js: Math.abs(parseFloat(document.querySelector(\"#total-sales\").textContent) - \x7bresult\x7d) < 0.01" :=
      strReplace_no_occurrence _ _ _ (by decide)
    have hres : getResultValue sumOfSalesTemplate seed (pyRandom seed) Option.none =
        (salesResultValue seed, pyRandom seed, some (salesResultValue seed)) := by
      unfold getResultValue
      rw [if_pos (by decide)]
      rfl
    have he5 : strReplace "js: Math.abs(parseFloat(document.querySelector(\"#total-sales\").textContent) - \x7bresult\x7d) < 0.01"
        "\x7bresult\x7d" (decNat (salesResultValue seed)) =
        "js: Math.abs(parseFloat(document.querySelector(\"#total-sales\").textContent) - "
          ++ decNat (salesResultValue seed) ++ ") < 0.01" := by
      apply strExt
      rw [strReplace_split _ _
        ("js: Math.abs(parseFloat(document.querySelector(\"#total-sales\").textContent) - ")
        (") < 0.01") _ ⟨"result\x7d".data, by decide⟩ (by decide) (by decide) (by decide)]
      simp [String.data_append, List.append_assoc]
    show (processChecksTemplate sumOfSalesTemplate
        ["Repo has MIT license",
         "README.md is professional",
         "js: document.title === `Sales Summary \x7bseed\x7d`",
         "js: !!document.querySelector(\"link[href*=\x27bootstrap\x27]\")",
         "js: Math.abs(parseFloat(document.querySelector(\"#total-sales\").textContent) - \x7bresult\x7d) < 0.01"]
        seed (pyRandom seed) Option.none).1 = _
    rw [processChecks_cons_noresult _ _ _ _ _ _ _ hid1 (by decide)]
    rw [processChecks_cons_noresult _ _ _ _ _ _ _ hid2 (by decide)]
    rw [processChecks_cons_noresult _ _ _ _ _ _ _ he3 hf3]
    rw [processChecks_cons_noresult _ _ _ _ _ _ _ hid4 (by decide)]
    rw [processChecks_cons_result _ _ _ _ _ _ _ _ _ _ hid5 (by decide) hres]
    rw [processChecksTemplate_nil, he5]

/-- Witness for `c4_sales_cross_check` at a concrete hex seed. -/
theorem c4_sales_cross_check_witness :
    (∀ c ∈ ("abc123" : String).data, c ∈ hexCharList) ∧
    (parseCsvSalesSum (salesCsvContent "abc123") = salesResultValue "abc123" ∧
     taskAttachments (TaskTemplate.generate_task sumOfSalesTemplate "abc123" 1 Option.none "t" 0) =
       [⟨"data.csv", "data:text/csv;base64," ++ base64encode (salesCsvContent "abc123")⟩] ∧
     taskChecks (TaskTemplate.generate_task sumOfSalesTemplate "abc123" 1 Option.none "t" 0) =
       ["Repo has MIT license",
        "README.md is professional",
        "js: document.title === `Sales Summary " ++ strTake "abc123" 8 ++ "`",
        "js: !!document.querySelector(\"link[href*=\x27bootstrap\x27]\")",
        "js: Math.abs(parseFloat(document.querySelector(\"#total-sales\").textContent) - "
          ++ decNat (salesResultValue "abc123") ++ ") < 0.01"]) :=
  ⟨by decide, c4_sales_cross_check "abc123" "t" Option.none 0 (by decide)⟩

/-- Status of one `CheckResult` (`EvaluationStatus` in `coreapp/database.py`,
restricted to the values the evaluator emits). -/
inductive EvalStatus where
  | pending
  | running
  | passed
  | failed
  | error
deriving DecidableEq

/-- A structured diagnostic value stored in a `CheckResult`'s `logs` dict. -/
inductive LogVal where
  | str (s : String)
  | nat (n : ℕ)
  | strList (l : List String)
  | flags (l : List (String × Bool))
  | vinfo (valid : Bool) (errorMsg : Option String) (has_license has_readme : Bool)
deriving DecidableEq

/-- One scored check result, as the evaluator emits it. -/
structure CheckResult where
  check_name : String
  status : EvalStatus
  score : ℚ
  reason : String
  logs : List (String × LogVal)
deriving DecidableEq

/-- The dict `github_manager.validate_repository` returns (the fields the
evaluator reads). -/
structure ValidationInfo where
  valid : Bool
  errorMsg : Option String
  has_license : Bool
  has_readme : Bool
deriving DecidableEq

/-- Outcome of calling into an external capability from inside a stage:
either its value, or the message of a raised exception. -/
inductive StageOutcome (α : Type) where
  | ok (a : α)
  | exc (msg : String)
deriving DecidableEq

/-- `RepositoryEvaluator._validate_repository`. -/
def validateRepositoryStage (githubAvailable : Bool)
    (v : StageOutcome ValidationInfo) : List CheckResult :=
  if ¬githubAvailable then
    [⟨"github_integration", EvalStatus.error, 0, "GitHub integration not available", []⟩]
  else
    match v with
    | StageOutcome.exc m =>
      [⟨"repository_validation", EvalStatus.error, 0,
        "Repository validation failed: " ++ m, [("error", LogVal.str m)]⟩]
    | StageOutcome.ok info =>
      if ¬info.valid then
        [⟨"repository_exists", EvalStatus.failed, 0,
          info.errorMsg.getD "Repository not accessible",
          [("validation", LogVal.vinfo info.valid info.errorMsg info.has_license info.has_readme)]⟩]
      else
        [⟨"repository_exists", EvalStatus.passed, 1, "Repository is accessible",
          [("validation", LogVal.vinfo info.valid info.errorMsg info.has_license info.has_readme)]⟩]
        ++ (if info.has_license then
            [⟨"license_check", EvalStatus.passed, 1, "MIT license found", []⟩]
          else
            [⟨"license_check", EvalStatus.failed, 0, "MIT license not found", []⟩])
        ++ (if info.has_readme then
            [⟨"readme_exists", EvalStatus.passed, 1, "README.md found", []⟩]
          else
            [⟨"readme_exists", EvalStatus.failed, 0, "README.md not found", []⟩])

/-- Outcome of `requests.get(pages_url, timeout=10)`: a response, a raised
`requests.RequestException`, or any other exception (class name + message) —
only the first two are caught inside `_check_pages_availability`. -/
inductive HttpOutcome where
  | ok (statusCode : ℕ) (elapsedStr : String) (contentLength : ℕ)
  | requestExc (msg : String)
  | otherExc (cls msg : String)
deriving DecidableEq

/-- `RepositoryEvaluator._check_pages_availability`: `Except.error` models an
exception the method does not catch (anything that is not a
`requests.RequestException`). -/
def checkPagesAvailability (h : HttpOutcome) : Except (String × String) CheckResult :=
  match h with
  | HttpOutcome.ok code elapsed clen =>
    if code = 200 then
      Except.ok ⟨"pages_availability", EvalStatus.passed, 1,
        "GitHub Pages accessible (HTTP " ++ decNat code ++ ")",
        [("status_code", LogVal.nat code), ("response_time", LogVal.str elapsed),
         ("content_length", LogVal.nat clen)]⟩
    else
      Except.ok ⟨"pages_availability", EvalStatus.failed, 0,
        "GitHub Pages returned HTTP " ++ decNat code, [("status_code", LogVal.nat code)]⟩
  | HttpOutcome.requestExc m =>
    Except.ok ⟨"pages_availability", EvalStatus.failed, 0,
      "GitHub Pages not accessible: " ++ m, [("error", LogVal.str m)]⟩
  | HttpOutcome.otherExc cls m => Except.error (cls, m)

/-- One console message of the rendered page, tagged with the index of the
`await` point at which asyncio delivers it to registered listeners
(`0` = `page.goto`, `1` = `wait_for_timeout(2000)`, `2` = `page.title()`,
`3` = `page.content()`). -/
structure ConsoleMsg where
  await : ℕ
  msgType : String
  text : String
deriving DecidableEq

/-- A successfully loaded page: its uncaught-script-error events and console
messages (with delivery points), title and parsed body text (`none` when the
document has no `body`). -/
structure PageV where
  scriptEvents : List (ℕ × String)
  consoleEvents : List ConsoleMsg
  title : String
  bodyText : Option String
deriving DecidableEq

/-- `page.on('pageerror', ...)` is registered after the `goto` await (index
0); the list is read right after the settle wait (index 1), so exactly the
events delivered at await point 1 are seen. -/
def pageErrorRegisteredAfterAwait : ℕ := 0

def lastAwaitBeforeJsCheck : ℕ := 1

def jsErrorsAtCheck (p : PageV) : List String :=
  (p.scriptEvents.filter (fun ev =>
    decide (pageErrorRegisteredAfterAwait < ev.1 ∧ ev.1 ≤ lastAwaitBeforeJsCheck))).map (·.2)

/-- `page.on('console', ...)` is registered after the settle wait (await
index 1), and `console_errors` is read immediately afterwards with no
intervening `await` — so the listener can only have seen events delivered at
an await point strictly after 1 and at most 1. -/
def consoleRegisteredAfterAwait : ℕ := 1

def lastAwaitBeforeConsoleCheck : ℕ := 1

def consoleErrorsAtCheck (p : PageV) : List String :=
  (p.consoleEvents.filter (fun ev =>
    decide (consoleRegisteredAfterAwait < ev.await ∧ ev.await ≤ lastAwaitBeforeConsoleCheck) &&
      ev.msgType = "error")).map (·.text)

/-- How the body of `_run_basic_dynamic_checks` terminates: a rendered page,
a navigation timeout (`PlaywrightTimeoutError`), or another exception raised
inside the body. -/
inductive LoadOutcome where
  | success (p : PageV)
  | timeout
  | exc (msg : String)
deriving DecidableEq

/-- `RepositoryEvaluator._run_basic_dynamic_checks`. -/
def runBasicDynamicChecks (o : LoadOutcome) : List CheckResult :=
  match o with
  | LoadOutcome.timeout =>
    [⟨"page_load", EvalStatus.failed, 0, "Page failed to load within timeout",
      [("timeout", LogVal.nat 15000)]⟩]
  | LoadOutcome.exc m =>
    [⟨"dynamic_checks", EvalStatus.error, 0, "Dynamic checks failed: " ++ m,
      [("error", LogVal.str m)]⟩]
  | LoadOutcome.success p =>
    (if jsErrorsAtCheck p ≠ [] then
      [⟨"javascript_errors", EvalStatus.failed, 0,
        "JavaScript errors detected: " ++ decNat (jsErrorsAtCheck p).length,
        [("errors", LogVal.strList ((jsErrorsAtCheck p).take 5))]⟩]
    else
      [⟨"javascript_errors", EvalStatus.passed, 1, "No JavaScript errors detected", []⟩])
    ++ (if consoleErrorsAtCheck p ≠ [] then
      [⟨"console_errors", EvalStatus.failed, (1 : ℚ)/2,
        "Console errors detected: " ++ decNat (consoleErrorsAtCheck p).length,
        [("errors", LogVal.strList ((consoleErrorsAtCheck p).take 5))]⟩]
    else [])
    ++ (if p.title.trim ≠ "" then
      [⟨"page_title", EvalStatus.passed, 1, "Page has title: " ++ strTake p.title 50 ++ "...",
        [("title", LogVal.str p.title)]⟩]
    else
      [⟨"page_title", EvalStatus.failed, 0, "Page missing title", []⟩])
    ++ (match p.bodyText with
      | some t =>
        if t.trim ≠ "" then
          [⟨"page_content", EvalStatus.passed, 1, "Page has content",
            [("content_length", LogVal.nat t.length)]⟩]
        else
          [⟨"page_content", EvalStatus.failed, 0, "Page appears to have no content", []⟩]
      | Option.none =>
        [⟨"page_content", EvalStatus.failed, 0, "Page appears to have no content", []⟩])

/-- `RepositoryEvaluator._run_dynamic_checks` (the wrapper catches any
exception that escapes `asyncio.run`). -/
def runDynamicChecks (d : StageOutcome LoadOutcome) : List CheckResult :=
  match d with
  | StageOutcome.ok o => runBasicDynamicChecks o
  | StageOutcome.exc m =>
    [⟨"dynamic_checks", EvalStatus.error, 0, "Dynamic checks failed: " ++ m,
      [("error", LogVal.str m)]⟩]

/-- What the repository host reports for the code-quality stage. -/
structure CodeInfo where
  repoFound : Bool
  commitCount : ℕ
  repoSize : ℕ
  languages : List String
deriving DecidableEq

/-- `f"{size_mb:.1f}"` for `size_mb = bytes / (1024*1024)`: one-decimal
fixed-point rendering (float rounding approximated by exact truncation). -/
def fmtMB (bytes : ℕ) : String :=
  decNat (bytes * 10 / 1048576 / 10) ++ "." ++ decNat (bytes * 10 / 1048576 % 10)

/-- `RepositoryEvaluator._check_code_quality`. -/
def checkCodeQuality (githubAvailable : Bool) (c : StageOutcome CodeInfo) : List CheckResult :=
  if ¬githubAvailable then []
  else
    match c with
    | StageOutcome.exc m =>
      [⟨"code_quality", EvalStatus.error, 0, "Code quality check failed: " ++ m,
        [("error", LogVal.str m)]⟩]
    | StageOutcome.ok info =>
      if ¬info.repoFound then []
      else
        (if info.commitCount > 0 then
          [⟨"has_commits", EvalStatus.passed, 1,
            "Repository has " ++ decNat info.commitCount ++ " commits",
            [("commit_count", LogVal.nat info.commitCount)]⟩]
        else
          [⟨"has_commits", EvalStatus.failed, 0, "Repository has no commits", []⟩])
        ++ (if info.repoSize > 0 then
          [⟨"repository_size", EvalStatus.passed, 1,
            "Repository size: " ++ fmtMB info.repoSize ++ " MB",
            [("size_bytes", LogVal.nat info.repoSize)]⟩]
        else [])
        ++ (if info.languages.length > 1 then
          [⟨"language_diversity", EvalStatus.passed, (8 : ℚ)/10,
            "Uses " ++ decNat info.languages.length ++ " programming languages",
            [("languages", LogVal.strList info.languages)]⟩]
        else if info.languages.length = 1 then
          [⟨"language_diversity", EvalStatus.passed, (6 : ℚ)/10,
            "Uses " ++ decNat info.languages.length ++ " programming language",
            [("languages", LogVal.strList info.languages)]⟩]
        else [])

/-- What the repository host reports for the README stage: whether the repo
resolved, and the decoded README text (`none` when `repo.get_readme()`
raised, which the bare inner `except` converts to a failed result). -/
structure ReadmeInfo where
  repoFound : Bool
  readme : Option String
deriving DecidableEq

/-- `re.search(r'^# .+', content, re.MULTILINE)`: some line starts with
`"# "` followed by at least one character. -/
def hasTitleCheck (content : String) : Bool :=
  (splitSep '\n' content.data).any (fun line => leadsList "# ".data line && decide (3 ≤ line.length))

/-- `len(re.findall(r'^## .+', content, re.MULTILINE))`. -/
def sectionsCount (content : String) : ℕ :=
  ((splitSep '\n' content.data).filter
    (fun line => leadsList "## ".data line && decide (4 ≤ line.length))).length

/-- The six README heuristics, in the dict order of the source. -/
def readmeChecks (content : String) : List (String × Bool) :=
  [("has_title", hasTitleCheck content),
   ("has_description", decide (100 < content.length)),
   ("has_sections", decide (2 ≤ sectionsCount content)),
   ("has_code_blocks", strContains content "```"),
   ("mentions_setup",
     strContains (pyLower content) "setup" || strContains (pyLower content) "install" ||
       strContains (pyLower content) "usage"),
   ("mentions_license", strContains (pyLower content) "license")]

/-- `passed_checks` of the README heuristics. -/
def readmePassedCount (content : String) : ℕ :=
  ((readmeChecks content).filter (fun ck => ck.2)).length

/-- `score = passed_checks / total_checks`. -/
def readmeQualityScore (content : String) : ℚ :=
  (readmePassedCount content : ℚ) / 6

/-- `f"{score:.2f}"` for the seven possible scores `k/6`. -/
def fmtScoreOf6 (k : ℕ) : String :=
  if k = 0 then "0.00"
  else if k = 1 then "0.17"
  else if k = 2 then "0.33"
  else if k = 3 then "0.50"
  else if k = 4 then "0.67"
  else if k = 5 then "0.83"
  else "1.00"

/-- `RepositoryEvaluator._check_readme_quality`. -/
def checkReadmeQuality (githubAvailable : Bool) (r : StageOutcome ReadmeInfo) : CheckResult :=
  if ¬githubAvailable then
    ⟨"readme_quality", EvalStatus.error, 0, "GitHub integration not available", []⟩
  else
    match r with
    | StageOutcome.exc m =>
      ⟨"readme_quality", EvalStatus.error, 0, "README quality check failed: " ++ m,
        [("error", LogVal.str m)]⟩
    | StageOutcome.ok info =>
      if ¬info.repoFound then
        ⟨"readme_quality", EvalStatus.failed, 0, "Repository not accessible", []⟩
      else
        match info.readme with
        | Option.none =>
          ⟨"readme_quality", EvalStatus.failed, 0, "README.md not found or not accessible", []⟩
        | some content =>
          ⟨"readme_quality",
            (if (8 : ℚ)/10 ≤ readmeQualityScore content then EvalStatus.passed
             else if (1 : ℚ)/2 ≤ readmeQualityScore content then EvalStatus.passed
             else EvalStatus.failed),
            readmeQualityScore content,
            "README quality score: " ++ fmtScoreOf6 (readmePassedCount content) ++ " (" ++
              decNat (readmePassedCount content) ++ "/6 checks passed)",
            [("checks", LogVal.flags (readmeChecks content)),
             ("content_length", LogVal.nat content.length),
             ("line_count", LogVal.nat (splitSep '\n' content.data).length)]⟩

/-- The external-capability outcomes one evaluation run observes: one per
stage of `RepositoryEvaluator.evaluate_repository`. -/
structure EvalEnv where
  githubAvailable : Bool
  validation : StageOutcome ValidationInfo
  pagesHttp : HttpOutcome
  dynamic : StageOutcome LoadOutcome
  codeQuality : StageOutcome CodeInfo
  readme : StageOutcome ReadmeInfo
deriving DecidableEq

/-- `RepositoryEvaluator.evaluate_repository`: the stages run in order, each
appending its results; an exception escaping a stage (only the
pages-availability stage can raise) is caught by the outermost handler,
which RETURNS a fresh single-element list — discarding earlier results and
skipping later stages. -/
def evaluateRepository (env : EvalEnv) (hasPages : Bool) : List CheckResult :=
  if hasPages then
    match checkPagesAvailability env.pagesHttp with
    | Except.error e =>
      [⟨"evaluation_error", EvalStatus.error, 0, "Evaluation failed: " ++ e.2,
        [("error", LogVal.str e.2), ("traceback", LogVal.str e.1)]⟩]
    | Except.ok pr =>
      validateRepositoryStage env.githubAvailable env.validation ++ [pr]
        ++ runDynamicChecks env.dynamic
        ++ checkCodeQuality env.githubAvailable env.codeQuality
        ++ [checkReadmeQuality env.githubAvailable env.readme]
  else
    validateRepositoryStage env.githubAvailable env.validation
      ++ checkCodeQuality env.githubAvailable env.codeQuality
      ++ [checkReadmeQuality env.githubAvailable env.readme]

/-- CLAIM C1 (amended): stages keep running after an *internally caught*
failure — the validation, dynamic, code-quality and README stages each
convert a raised exception into a single error-status CheckResult and the
stage battery continues, with all results concatenated in order.  But an
exception escaping the pages-availability stage (any non-request-library
exception) reaches the outermost handler, which returns a single
error-status CheckResult: earlier results are discarded and later stages do
not run. -/
theorem c1_stage_isolation (env : EvalEnv) :
    (∀ cls m, env.pagesHttp = HttpOutcome.otherExc cls m →
      evaluateRepository env true =
        [⟨"evaluation_error", EvalStatus.error, 0, "Evaluation failed: " ++ m,
          [("error", LogVal.str m), ("traceback", LogVal.str cls)]⟩]) ∧
    ((∀ cls m, env.pagesHttp ≠ HttpOutcome.otherExc cls m) →
      ∃ pr, checkPagesAvailability env.pagesHttp = Except.ok pr ∧
        evaluateRepository env true =
          validateRepositoryStage env.githubAvailable env.validation ++ [pr]
            ++ runDynamicChecks env.dynamic
            ++ checkCodeQuality env.githubAvailable env.codeQuality
            ++ [checkReadmeQuality env.githubAvailable env.readme]) ∧
    (∀ m, env.dynamic = StageOutcome.exc m →
      runDynamicChecks env.dynamic =
        [⟨"dynamic_checks", EvalStatus.error, 0, "Dynamic checks failed: " ++ m,
          [("error", LogVal.str m)]⟩]) ∧
    (∀ m, env.githubAvailable = true → env.validation = StageOutcome.exc m →
      validateRepositoryStage env.githubAvailable env.validation =
        [⟨"repository_validation", EvalStatus.error, 0, "Repository validation failed: " ++ m,
          [("error", LogVal.str m)]⟩]) ∧
    (∀ m, env.githubAvailable = true → env.codeQuality = StageOutcome.exc m →
      checkCodeQuality env.githubAvailable env.codeQuality =
        [⟨"code_quality", EvalStatus.error, 0, "Code quality check failed: " ++ m,
          [("error", LogVal.str m)]⟩]) ∧
    (∀ m, env.githubAvailable = true → env.readme = StageOutcome.exc m →
      checkReadmeQuality env.githubAvailable env.readme =
        ⟨"readme_quality", EvalStatus.error, 0, "README quality check failed: " ++ m,
          [("error", LogVal.str m)]⟩) := by
  refine ⟨?_, ?_, ?_, ?_, ?_, ?_⟩
  · intro cls m h
    simp [evaluateRepository, h, checkPagesAvailability]
  · intro hne
    have hex : ∃ pr, checkPagesAvailability env.pagesHttp = Except.ok pr := by
      rcases hp : env.pagesHttp with ⟨code, el, cl⟩ | m | ⟨cls, m⟩
      · by_cases h200 : code = 200 <;> simp [checkPagesAvailability, h200]
      · simp [checkPagesAvailability]
      · exact absurd hp (hne cls m)
    obtain ⟨pr, hpr⟩ := hex
    exact ⟨pr, hpr, by simp [evaluateRepository, hpr]⟩
  · intro m h
    simp [runDynamicChecks, h]
  · intro m hg h
    simp [validateRepositoryStage, hg, h]
  · intro m hg h
    simp [checkCodeQuality, hg, h]
  · intro m hg h
    simp [checkReadmeQuality, hg, h]

/-- A run in which GitHub, the page and the README all behave, but the
dynamic stage raises internally. -/
def c1WitnessEnv : EvalEnv :=
  ⟨true, StageOutcome.ok ⟨true, Option.none, true, true⟩,
   HttpOutcome.ok 200 "0.1" 5,
   StageOutcome.exc "boom",
   StageOutcome.ok ⟨true, 3, 100, ["HTML"]⟩,
   StageOutcome.ok ⟨true, some "# readme"⟩⟩

/-- Witness for `c1_stage_isolation`: a dynamic-stage exception becomes a
single error result for that stage. -/
theorem c1_stage_isolation_witness :
    c1WitnessEnv.dynamic = StageOutcome.exc "boom" ∧
      runDynamicChecks c1WitnessEnv.dynamic =
        [⟨"dynamic_checks", EvalStatus.error, 0, "Dynamic checks failed: boom",
          [("error", LogVal.str "boom")]⟩] :=
  ⟨rfl, (c1_stage_isolation c1WitnessEnv).2.2.1 "boom" rfl⟩

/-- A run whose pages-availability fetch raises a non-request exception
after a fully successful validation stage. -/
def c1FailEnv : EvalEnv :=
  ⟨true, StageOutcome.ok ⟨true, Option.none, true, true⟩,
   HttpOutcome.otherExc "RuntimeError" "boom",
   StageOutcome.ok (LoadOutcome.success ⟨[], [], "T", some "body"⟩),
   StageOutcome.ok ⟨true, 3, 100, ["HTML"]⟩,
   StageOutcome.ok ⟨true, some "# readme"⟩⟩

/-- CLAIM C1 (counterexample): when the pages stage raises, the returned
list is the single `evaluation_error` result — the `repository_exists`
result the validation stage had produced is NOT retained, and the README
stage does NOT run, contradicting the claim. -/
theorem c1_counterexample :
    (evaluateRepository c1FailEnv true).map CheckResult.check_name = ["evaluation_error"] ∧
    "repository_exists" ∉ (evaluateRepository c1FailEnv true).map CheckResult.check_name ∧
    "readme_quality" ∉ (evaluateRepository c1FailEnv true).map CheckResult.check_name ∧
    "repository_exists" ∈
      (validateRepositoryStage c1FailEnv.githubAvailable c1FailEnv.validation).map
        CheckResult.check_name := by
  refine ⟨?_, ?_, ?_, ?_⟩ <;> decide

theorem consoleErrorsAtCheck_nil (p : PageV) : consoleErrorsAtCheck p = [] := by
  unfold consoleErrorsAtCheck
  have hfil : ∀ l : List ConsoleMsg,
      l.filter (fun ev =>
        decide (consoleRegisteredAfterAwait < ev.await ∧ ev.await ≤ lastAwaitBeforeConsoleCheck) &&
          decide (ev.msgType = "error")) = [] := by
    intro l
    induction l with
    | nil => rfl
    | cons e rest ih =>
      rw [List.filter_cons]
      have hdec : decide (consoleRegisteredAfterAwait < e.await ∧
          e.await ≤ lastAwaitBeforeConsoleCheck) = false := by
        simp only [consoleRegisteredAfterAwait, lastAwaitBeforeConsoleCheck,
          decide_eq_false_iff_not]
        omega
      rw [hdec]
      simpa using ih
  rw [hfil]
  rfl

theorem runBasicDynamicChecks_names (p : PageV) :
    (runBasicDynamicChecks (LoadOutcome.success p)).map CheckResult.check_name =
      ["javascript_errors", "page_title", "page_content"] := by
  simp only [runBasicDynamicChecks, consoleErrorsAtCheck_nil p]
  rcases p.bodyText with _ | t <;> split_ifs <;> (try simp_all) <;> (split <;> simp_all)

theorem filter_console_nil (l : List CheckResult)
    (h : "console_errors" ∉ l.map CheckResult.check_name) :
    l.filter (fun r => r.check_name = "console_errors") = [] := by
  induction l with
  | nil => rfl
  | cons r rest ih =>
    simp only [List.map_cons, List.mem_cons, not_or] at h
    have hne : ¬(r.check_name = "console_errors") := fun hc => h.1 hc.symm
    simp [List.filter_cons, hne, ih h.2]

/-- CLAIM C6 (code bug): the `console_errors` branch is dead code.  The
listener is registered after navigation and the list is read immediately,
with no `await` in between, so the list is empty for every page and no
`console_errors` CheckResult (score 0.5) is ever emitted; the stage always
produces exactly the `javascript_errors`, `page_title` and `page_content`
results on a loaded page. -/
theorem c6_console_branch_dead :
    (∀ p : PageV, consoleErrorsAtCheck p = []) ∧
    (∀ o : LoadOutcome,
      (runBasicDynamicChecks o).filter (fun r => r.check_name = "console_errors") = []) ∧
    (∀ p : PageV, (runBasicDynamicChecks (LoadOutcome.success p)).map CheckResult.check_name =
      ["javascript_errors", "page_title", "page_content"]) := by
  refine ⟨consoleErrorsAtCheck_nil, ?_, runBasicDynamicChecks_names⟩
  intro o
  rcases o with p | _ | m
  · apply filter_console_nil
    rw [runBasicDynamicChecks_names]
    decide
  · simp [runBasicDynamicChecks]
  · simp [runBasicDynamicChecks]

/-- A README with an H1 title, more than 100 characters and a fenced code
block, but no H2 sections and no setup/install/usage/license mention:
exactly 3 of the 6 heuristics hold. -/
def c8ExampleReadme : String :=
  "# Demo App\n\nThis project renders a small chart in the browser and stores results in memory for quick viewing.\n\n```\nnpm run dev\n```\n"

theorem readmePassedCount_le (content : String) : readmePassedCount content ≤ 6 := by
  have h := List.length_filter_le (fun ck : String × Bool => ck.2) (readmeChecks content)
  simpa [readmeChecks, readmePassedCount] using h

set_option maxRecDepth 16000 in
/-- CLAIM C8: the `readme_quality` score is the number of satisfied
heuristics over 6, its status is `passed` exactly when the score is at
least 0.5 (both the `≥ 0.8` and the `≥ 0.5` branch map to `passed`), and a
README meeting exactly 3 heuristics scores 0.5 with status `passed`. -/
theorem c8_readme_scoring (content : String) :
    (checkReadmeQuality true (StageOutcome.ok ⟨true, some content⟩)).score =
      (readmePassedCount content : ℚ) / 6 ∧
    ((checkReadmeQuality true (StageOutcome.ok ⟨true, some content⟩)).status = EvalStatus.passed ↔
      (1 : ℚ)/2 ≤ (checkReadmeQuality true (StageOutcome.ok ⟨true, some content⟩)).score) ∧
    readmePassedCount c8ExampleReadme = 3 ∧
    (checkReadmeQuality true (StageOutcome.ok ⟨true, some c8ExampleReadme⟩)).score = 1/2 ∧
    (checkReadmeQuality true (StageOutcome.ok ⟨true, some c8ExampleReadme⟩)).status =
      EvalStatus.passed := by
  have hsc : ∀ c : String, (checkReadmeQuality true (StageOutcome.ok ⟨true, some c⟩)).score =
      (readmePassedCount c : ℚ) / 6 := fun c => rfl
  have hst : ∀ c : String, (checkReadmeQuality true (StageOutcome.ok ⟨true, some c⟩)).status =
      (if (8 : ℚ)/10 ≤ readmeQualityScore c then EvalStatus.passed
       else if (1 : ℚ)/2 ≤ readmeQualityScore c then EvalStatus.passed
       else EvalStatus.failed) := fun c => rfl
  have hiff : ∀ c : String,
      ((checkReadmeQuality true (StageOutcome.ok ⟨true, some c⟩)).status = EvalStatus.passed ↔
        (1 : ℚ)/2 ≤ (checkReadmeQuality true (StageOutcome.ok ⟨true, some c⟩)).score) := by
    intro c
    rw [hst, hsc]
    have hs : readmeQualityScore c = (readmePassedCount c : ℚ) / 6 := rfl
    rw [hs]
    by_cases h8 : (8 : ℚ)/10 ≤ (readmePassedCount c : ℚ) / 6
    · rw [if_pos h8]
      constructor
      · intro _
        linarith
      · intro _
        rfl
    · simp only [if_neg h8]
      by_cases h5 : (1 : ℚ)/2 ≤ (readmePassedCount c : ℚ) / 6
      · simp [h5]
      · simp [h5]
  have hcount : readmePassedCount c8ExampleReadme = 3 := by decide
  refine ⟨hsc content, hiff content, hcount, ?_, ?_⟩
  · rw [hsc, hcount]
    norm_num
  · rw [hiff c8ExampleReadme, hsc, hcount]
    norm_num

/-! ## C5: submission intake endpoints
`handle_evaluation_submission` (`src/coreapp/evaluation_api.py`) and
`RepositoryEvaluation.post` (`src/coreapp/api_server.py`), over an explicit
database state. Both validate required fields, task existence, the nonce
and the task status before any state change; only the second requires the
task to still be in the `sent` state. -/

inductive TaskStatus
  | pending | sent | received | evaluating | completed | failed
deriving DecidableEq

structure TaskRec where
  id : Nat
  task_id : String
  nonce : String
  status : TaskStatus
deriving DecidableEq

structure RepoRec where
  id : Nat
  task_row : Nat
  repo_url : String
  commit_sha : String
  pages_url : Option String
deriving DecidableEq

structure Db where
  tasks : List TaskRec
  repos : List RepoRec
  nextRepoId : Nat
deriving DecidableEq

/-- `db_manager.get_task_by_id`: first task whose `task_id` matches. -/
def get_task_by_id (db : Db) (tid : String) : Option TaskRec :=
  db.tasks.find? (fun t => t.task_id == tid)

/-- `db_manager.update_task_status` updates the first matching row only
(the SQL query uses `.first()`). -/
def updateFirst (tid : String) (st : TaskStatus) : List TaskRec → List TaskRec
  | [] => []
  | t :: rest =>
      if t.task_id == tid then { t with status := st } :: rest
      else t :: updateFirst tid st rest

def update_task_status (db : Db) (tid : String) (st : TaskStatus) : Db :=
  { db with tasks := updateFirst tid st db.tasks }

/-- `db_manager.create_repository`: insert a row, return the new row id. -/
def create_repository (db : Db) (taskRow : Nat) (ru cs : String)
    (pu : Option String) : Db × Nat :=
  ({ db with repos := db.repos ++ [⟨db.nextRepoId, taskRow, ru, cs, pu⟩],
             nextRepoId := db.nextRepoId + 1 }, db.nextRepoId)

/-- A parsed JSON body; `none` models an absent field. -/
structure Submission where
  email : Option String
  task : Option String
  round : Option String
  nonce : Option String
  repo_url : Option String
  commit_sha : Option String
  pages_url : Option String
deriving DecidableEq

structure EvalJob where
  repository_id : Nat
  task_id : String
  repo_url : String
  commit_sha : String
  pages_url : Option String
deriving DecidableEq

def hasRequiredFields (s : Submission) : Bool :=
  s.email.isSome && s.task.isSome && s.round.isSome && s.nonce.isSome &&
  s.repo_url.isSome && s.commit_sha.isSome

/-- `handle_evaluation_submission` of `evaluation_api.py`: returns the HTTP
status code, the database afterwards and the evaluation jobs put on the
queue by this request.  It accepts a task whose status is `sent` OR
`received`. -/
def handle_evaluation_submission (db : Db) (s : Submission) :
    Nat × Db × List EvalJob :=
  if !hasRequiredFields s then (400, db, [])
  else
    match get_task_by_id db (s.task.getD "") with
    | none => (400, db, [])
    | some task =>
      if task.nonce != s.nonce.getD "" then (400, db, [])
      else if !(task.status == TaskStatus.sent || task.status == TaskStatus.received) then
        (400, db, [])
      else
        let db1 := update_task_status db (s.task.getD "") TaskStatus.received
        let pr := create_repository db1 task.id (s.repo_url.getD "")
          (s.commit_sha.getD "") s.pages_url
        (200, pr.1,
          [⟨pr.2, s.task.getD "", s.repo_url.getD "", s.commit_sha.getD "", s.pages_url⟩])

/-- `RepositoryEvaluation.post` of `api_server.py`: same validation but the
task status must be exactly `sent`, and nothing is queued. -/
def repository_evaluation_post (db : Db) (s : Submission) : Nat × Db :=
  if !hasRequiredFields s then (400, db)
  else
    match get_task_by_id db (s.task.getD "") with
    | none => (400, db)
    | some task =>
      if task.nonce != s.nonce.getD "" then (400, db)
      else if task.status != TaskStatus.sent then (400, db)
      else
        let db1 := update_task_status db task.task_id TaskStatus.received
        let pr := create_repository db1 task.id (s.repo_url.getD "")
          (s.commit_sha.getD "") s.pages_url
        (200, pr.1)

theorem hes_nonce_reject (db : Db) (s : Submission) (t : TaskRec)
    (hfind : get_task_by_id db (s.task.getD "") = some t)
    (hn : t.nonce ≠ s.nonce.getD "") :
    handle_evaluation_submission db s = (400, db, []) := by
  unfold handle_evaluation_submission
  cases hb : hasRequiredFields s with
  | false => simp [hb]
  | true =>
    simp only [hb, Bool.not_true, Bool.false_eq_true, if_false, hfind]
    rw [if_pos (by simp [bne_iff_ne, hn])]

theorem hes_status_reject (db : Db) (s : Submission) (t : TaskRec)
    (hfind : get_task_by_id db (s.task.getD "") = some t)
    (hs1 : t.status ≠ TaskStatus.sent) (hs2 : t.status ≠ TaskStatus.received) :
    handle_evaluation_submission db s = (400, db, []) := by
  unfold handle_evaluation_submission
  cases hb : hasRequiredFields s with
  | false => simp [hb]
  | true =>
    simp only [hb, Bool.not_true, Bool.false_eq_true, if_false, hfind]
    by_cases hn : (t.nonce != s.nonce.getD "") = true
    · rw [if_pos hn]
    · rw [if_neg hn, if_pos (by simp [hs1, hs2])]

theorem rep_nonce_reject (db : Db) (s : Submission) (t : TaskRec)
    (hfind : get_task_by_id db (s.task.getD "") = some t)
    (hn : t.nonce ≠ s.nonce.getD "") :
    repository_evaluation_post db s = (400, db) := by
  unfold repository_evaluation_post
  cases hb : hasRequiredFields s with
  | false => simp [hb]
  | true =>
    simp only [hb, Bool.not_true, Bool.false_eq_true, if_false, hfind]
    rw [if_pos (by simp [bne_iff_ne, hn])]

theorem rep_status_reject (db : Db) (s : Submission) (t : TaskRec)
    (hfind : get_task_by_id db (s.task.getD "") = some t)
    (hs1 : t.status ≠ TaskStatus.sent) :
    repository_evaluation_post db s = (400, db) := by
  unfold repository_evaluation_post
  cases hb : hasRequiredFields s with
  | false => simp [hb]
  | true =>
    simp only [hb, Bool.not_true, Bool.false_eq_true, if_false, hfind]
    by_cases hn : (t.nonce != s.nonce.getD "") = true
    · rw [if_pos hn]
    · rw [if_neg hn, if_pos (by simp [bne_iff_ne, hs1])]

theorem find_updateFirst_self (tid : String) (st : TaskStatus) (t : TaskRec)
    (l : List TaskRec)
    (h : l.find? (fun x => x.task_id == tid) = some t) :
    (updateFirst tid st l).find? (fun x => x.task_id == tid) =
      some { t with status := st } := by
  induction l with
  | nil => simp at h
  | cons a rest ih =>
    by_cases h1 : (a.task_id == tid) = true
    · rw [List.find?_cons_of_pos (p := fun x : TaskRec => x.task_id == tid) rest h1] at h
      injection h with h
      subst h
      have hupd : updateFirst tid st (a :: rest) = { a with status := st } :: rest := by
        simp [updateFirst, h1]
      rw [hupd,
        List.find?_cons_of_pos (p := fun x : TaskRec => x.task_id == tid) rest (by exact h1)]
    · rw [List.find?_cons_of_neg (p := fun x : TaskRec => x.task_id == tid) rest h1] at h
      have hupd : updateFirst tid st (a :: rest) = a :: updateFirst tid st rest := by
        simp [updateFirst, h1]
      rw [hupd, List.find?_cons_of_neg (p := fun x : TaskRec => x.task_id == tid) _ h1]
      exact ih h

theorem rep_post_accept_shape (db : Db) (s : Submission) (db' : Db)
    (h : repository_evaluation_post db s = (200, db')) :
    ∃ t : TaskRec, hasRequiredFields s = true ∧
      get_task_by_id db (s.task.getD "") = some t ∧
      t.nonce = s.nonce.getD "" ∧ t.status = TaskStatus.sent ∧
      db'.tasks = updateFirst t.task_id TaskStatus.received db.tasks := by
  unfold repository_evaluation_post at h
  cases hb : hasRequiredFields s with
  | false => simp [hb] at h
  | true =>
    simp only [hb, Bool.not_true, Bool.false_eq_true, if_false] at h
    cases hfind : get_task_by_id db (s.task.getD "") with
    | none => simp only [hfind] at h; simp at h
    | some t =>
      simp only [hfind] at h
      by_cases hn : (t.nonce != s.nonce.getD "") = true
      · rw [if_pos hn] at h; simp at h
      · rw [if_neg hn] at h
        by_cases hs : (t.status != TaskStatus.sent) = true
        · rw [if_pos hs] at h; simp at h
        · rw [if_neg hs] at h
          have hdb : db' = (create_repository
              (update_task_status db t.task_id TaskStatus.received) t.id
              (s.repo_url.getD "") (s.commit_sha.getD "") s.pages_url).1 := by
            have := congrArg Prod.snd h
            simpa using this.symm
          refine ⟨t, rfl, rfl, ?_, ?_, ?_⟩
          · simpa [bne_iff_ne] using hn
          · simpa [bne_iff_ne] using hs
          · rw [hdb]; rfl

theorem rep_post_replay (db : Db) (s : Submission) (db' : Db)
    (h : repository_evaluation_post db s = (200, db')) :
    (repository_evaluation_post db' s).1 = 400 := by
  obtain ⟨t, hb, hfind, hn, hs, htasks⟩ := rep_post_accept_shape db s db' h
  have hkey : t.task_id = s.task.getD "" := by
    have hp := List.find?_some hfind
    exact eq_of_beq hp
  have hfind2 : db.tasks.find? (fun x => x.task_id == t.task_id) = some t := by
    unfold get_task_by_id at hfind
    rw [hkey]
    exact hfind
  have hfind' : get_task_by_id db' (s.task.getD "") =
      some { t with status := TaskStatus.received } := by
    unfold get_task_by_id
    rw [htasks, ← hkey]
    exact find_updateFirst_self t.task_id TaskStatus.received t db.tasks hfind2
  unfold repository_evaluation_post
  cases hbb : hasRequiredFields s with
  | false => rw [hb] at hbb; exact Bool.noConfusion hbb
  | true =>
    simp only [Bool.not_true, Bool.false_eq_true, if_false, hfind']
    rw [if_neg (by simp [bne_iff_ne, hn]), if_pos (by decide)]

/-- CLAIM C5 (amended): at both intake endpoints a nonce mismatch, and a
task status outside the accepted set, are rejected with HTTP 400 leaving
the database unchanged and enqueuing no evaluation job; the `api_server`
endpoint enforces single use (a replay of an accepted submission is
rejected), but the `evaluation_api` endpoint also accepts tasks already in
the `received` state, so there a nonce authorizes more than one accepted
submission. -/
theorem c5_nonce_validation :
    (∀ (db : Db) (s : Submission) (t : TaskRec),
        get_task_by_id db (s.task.getD "") = some t →
        t.nonce ≠ s.nonce.getD "" →
        handle_evaluation_submission db s = (400, db, []) ∧
        repository_evaluation_post db s = (400, db)) ∧
    (∀ (db : Db) (s : Submission) (t : TaskRec),
        get_task_by_id db (s.task.getD "") = some t →
        t.status ≠ TaskStatus.sent → t.status ≠ TaskStatus.received →
        handle_evaluation_submission db s = (400, db, [])) ∧
    (∀ (db : Db) (s : Submission) (t : TaskRec),
        get_task_by_id db (s.task.getD "") = some t →
        t.status ≠ TaskStatus.sent →
        repository_evaluation_post db s = (400, db)) ∧
    (∀ (db : Db) (s : Submission) (db' : Db),
        repository_evaluation_post db s = (200, db') →
        (repository_evaluation_post db' s).1 = 400) := by
  refine ⟨?_, ?_, ?_, ?_⟩
  · exact fun db s t hf hn => ⟨hes_nonce_reject db s t hf hn, rep_nonce_reject db s t hf hn⟩
  · exact hes_status_reject
  · exact rep_status_reject
  · exact rep_post_replay

def c5Db : Db :=
  { tasks := [⟨1, "t1", "n1", TaskStatus.sent⟩], repos := [], nextRepoId := 1 }

def c5Sub : Submission :=
  ⟨some "a@b.c", some "t1", some "1", some "n1",
   some "https://github.com/a/r", some "deadbeef", none⟩

def c5BadSub : Submission := { c5Sub with nonce := some "wrong" }

theorem c5_nonce_validation_witness :
    handle_evaluation_submission c5Db c5BadSub = (400, c5Db, []) :=
  (c5_nonce_validation.1 c5Db c5BadSub ⟨1, "t1", "n1", TaskStatus.sent⟩
    (by decide) (by decide)).1

/-- CLAIM C5 counterexample: at the `evaluation_api` intake endpoint, an
accepted submission leaves the task in the `received` state, which the
endpoint also accepts, so a second submission with the very same nonce is
accepted again (HTTP 200) and enqueues a second evaluation job — the nonce
is not single-use there. -/
theorem c5_nonce_reuse_counterexample :
    (handle_evaluation_submission c5Db c5Sub).1 = 200 ∧
    (handle_evaluation_submission
      (handle_evaluation_submission c5Db c5Sub).2.1 c5Sub).1 = 200 ∧
    (handle_evaluation_submission
      (handle_evaluation_submission c5Db c5Sub).2.1 c5Sub).2.2 ≠ [] := by
  decide

/-! ## C10: `APIServer._check_rate_limit` (`src/coreapp/api_server.py`)
State is the `rate_limits` dict, modelled as an association list with
unique keys; time is `time.time()` in whole seconds, modelled as `Int`. -/

structure RateEntry where
  count : Nat
  timestamp : Int
deriving DecidableEq

/-- The dict comprehension `{k: v for k, v in ... if v['timestamp'] > window_start}`
with `window_start = current_time - 60`. -/
def pruneRL (now : Int) (rl : List (String × RateEntry)) :
    List (String × RateEntry) :=
  rl.filter (fun kv => decide (now - 60 < kv.2.timestamp))

/-- Dict assignment: replace the value at an existing key in place. -/
def setEntry (email : String) (e : RateEntry) :
    List (String × RateEntry) → List (String × RateEntry)
  | [] => []
  | kv :: rest =>
      if kv.1 == email then (email, e) :: rest else kv :: setEntry email e rest

/-- `_check_rate_limit`: prune stale entries, then either refuse (count at
the limit), bump the existing entry, or create a fresh one. Returns the
decision and the dict afterwards. -/
def check_rate_limit (limit : Nat) (now : Int) (email : String)
    (rl : List (String × RateEntry)) : Bool × List (String × RateEntry) :=
  let pruned := pruneRL now rl
  match pruned.find? (fun kv => kv.1 == email) with
  | some kv =>
      if limit ≤ kv.2.count then (false, pruned)
      else (true, setEntry email ⟨kv.2.count + 1, now⟩ pruned)
  | none => (true, pruned ++ [(email, ⟨1, now⟩)])

theorem pruneRL_pruneRL (t t' : Int) (h : t ≤ t')
    (rl : List (String × RateEntry)) :
    pruneRL t' (pruneRL t rl) = pruneRL t' rl := by
  unfold pruneRL
  rw [List.filter_filter]
  apply List.filter_congr
  intro x _
  by_cases h' : t' - 60 < x.2.timestamp
  · have h2 : t - 60 < x.2.timestamp := by omega
    simp [h', h2]
  · simp [h']

theorem find?_pruneRL_setEntry (t : Int) (a b : String) (e : RateEntry)
    (hab : (a == b) = false) (l : List (String × RateEntry)) :
    (pruneRL t (setEntry a e l)).find? (fun kv => kv.1 == b) =
      (pruneRL t l).find? (fun kv => kv.1 == b) := by
  induction l with
  | nil => rfl
  | cons kv rest ih =>
    by_cases hk : (kv.1 == a) = true
    · have hkey : kv.1 = a := eq_of_beq hk
      have hkb : (kv.1 == b) = false := by rw [hkey]; exact hab
      have hset : setEntry a e (kv :: rest) = (a, e) :: rest := by
        simp [setEntry, hk]
      rw [hset]
      unfold pruneRL
      rw [List.filter_cons, List.filter_cons]
      by_cases hp1 : (decide (t - 60 < ((a, e) : String × RateEntry).2.timestamp)) = true
      · rw [if_pos hp1]
        by_cases hp2 : (decide (t - 60 < kv.2.timestamp)) = true
        · rw [if_pos hp2,
            List.find?_cons_of_neg (p := fun kv : String × RateEntry => kv.1 == b) _
              (by simp [hab]),
            List.find?_cons_of_neg (p := fun kv : String × RateEntry => kv.1 == b) _
              (by simp [hkb])]
        · rw [if_neg hp2,
            List.find?_cons_of_neg (p := fun kv : String × RateEntry => kv.1 == b) _
              (by simp [hab])]
      · rw [if_neg hp1]
        by_cases hp2 : (decide (t - 60 < kv.2.timestamp)) = true
        · rw [if_pos hp2,
            List.find?_cons_of_neg (p := fun kv : String × RateEntry => kv.1 == b) _
              (by simp [hkb])]
        · rw [if_neg hp2]
    · have hset : setEntry a e (kv :: rest) = kv :: setEntry a e rest := by
        simp [setEntry, hk]
      rw [hset]
      unfold pruneRL at ih ⊢
      rw [List.filter_cons, List.filter_cons]
      by_cases hp : (decide (t - 60 < kv.2.timestamp)) = true
      · rw [if_pos hp, if_pos hp]
        by_cases hkb : (kv.1 == b) = true
        · rw [List.find?_cons_of_pos (p := fun kv : String × RateEntry => kv.1 == b) _ hkb,
            List.find?_cons_of_pos (p := fun kv : String × RateEntry => kv.1 == b) _ hkb]
        · rw [List.find?_cons_of_neg (p := fun kv : String × RateEntry => kv.1 == b) _
              (by simp [hkb]),
            List.find?_cons_of_neg (p := fun kv : String × RateEntry => kv.1 == b) _
              (by simp [hkb])]
          exact ih
      · rw [if_neg hp, if_neg hp]
        exact ih

theorem find?_pruneRL_append (t : Int) (a b : String) (e : RateEntry)
    (hab : (a == b) = false) (l : List (String × RateEntry)) :
    (pruneRL t (l ++ [(a, e)])).find? (fun kv => kv.1 == b) =
      (pruneRL t l).find? (fun kv => kv.1 == b) := by
  induction l with
  | nil =>
    unfold pruneRL
    rw [List.nil_append]
    rw [List.filter_cons]
    by_cases hp : (decide (t - 60 < ((a, e) : String × RateEntry).2.timestamp)) = true
    · rw [if_pos hp,
        List.find?_cons_of_neg (p := fun kv : String × RateEntry => kv.1 == b) _
          (by simp [hab])]
    · rw [if_neg hp]
  | cons kv rest ih =>
    unfold pruneRL at ih ⊢
    rw [List.cons_append, List.filter_cons, List.filter_cons]
    by_cases hp : (decide (t - 60 < kv.2.timestamp)) = true
    · rw [if_pos hp, if_pos hp]
      by_cases hkb : (kv.1 == b) = true
      · rw [List.find?_cons_of_pos (p := fun kv : String × RateEntry => kv.1 == b) _ hkb,
          List.find?_cons_of_pos (p := fun kv : String × RateEntry => kv.1 == b) _ hkb]
      · rw [List.find?_cons_of_neg (p := fun kv : String × RateEntry => kv.1 == b) _
            (by simp [hkb]),
          List.find?_cons_of_neg (p := fun kv : String × RateEntry => kv.1 == b) _
            (by simp [hkb])]
        exact ih
    · rw [if_neg hp, if_neg hp]
      exact ih

theorem crl_fst (limit : Nat) (t : Int) (b : String)
    (rl : List (String × RateEntry)) :
    (check_rate_limit limit t b rl).1 =
      (match (pruneRL t rl).find? (fun kv => kv.1 == b) with
       | some kv => if limit ≤ kv.2.count then false else true
       | none => true) := by
  unfold check_rate_limit
  cases h : (pruneRL t rl).find? (fun kv => kv.1 == b) with
  | none => simp only [h]
  | some kv =>
    simp only [h]
    by_cases hle : limit ≤ kv.2.count
    · simp [hle]
    · simp [hle]

theorem crl_snd_shape (limit : Nat) (t : Int) (a : String)
    (rl : List (String × RateEntry)) :
    (check_rate_limit limit t a rl).2 = pruneRL t rl ∨
    (∃ kv, (check_rate_limit limit t a rl).2 =
      setEntry a ⟨kv + 1, t⟩ (pruneRL t rl)) ∨
    (check_rate_limit limit t a rl).2 = pruneRL t rl ++ [(a, ⟨1, t⟩)] := by
  unfold check_rate_limit
  cases h : (pruneRL t rl).find? (fun kv => kv.1 == a) with
  | none => right; right; simp only [h]
  | some kv =>
    by_cases hle : limit ≤ kv.2.count
    · left; simp [h, hle]
    · right; left; exact ⟨kv.2.count, by simp [h, hle]⟩

/-- CLAIM C10 (amended): (i) when the caller's pruned entry has reached the
limit the call returns `false` and that entry is left unchanged; (ii) an
entry survives pruning at time `now` exactly when strictly fewer than 60
seconds have elapsed since its timestamp — so an identity becomes allowed
again once at least 60 (not strictly more than 60) seconds have passed;
(iii) when the identity has no surviving entry the call returns `true`
and records count 1; (iv) under non-decreasing time, a call for one
identity never changes the decision for another. -/
theorem c10_rate_limit :
    (∀ (limit : Nat) (now : Int) (email : String)
        (rl : List (String × RateEntry)) (p : String × RateEntry),
        (pruneRL now rl).find? (fun kv => kv.1 == email) = some p →
        limit ≤ p.2.count →
        (check_rate_limit limit now email rl).1 = false ∧
        ((check_rate_limit limit now email rl).2).find?
          (fun kv => kv.1 == email) = some p) ∧
    (∀ (now : Int) (rl : List (String × RateEntry)) (kv : String × RateEntry),
        kv ∈ pruneRL now rl ↔ kv ∈ rl ∧ now - kv.2.timestamp < 60) ∧
    (∀ (limit : Nat) (now : Int) (email : String)
        (rl : List (String × RateEntry)),
        (pruneRL now rl).find? (fun kv => kv.1 == email) = none →
        check_rate_limit limit now email rl =
          (true, pruneRL now rl ++ [(email, ⟨1, now⟩)])) ∧
    (∀ (limit : Nat) (t t' : Int) (a b : String)
        (rl : List (String × RateEntry)),
        (a == b) = false → t ≤ t' →
        (check_rate_limit limit t' b ((check_rate_limit limit t a rl).2)).1 =
          (check_rate_limit limit t' b rl).1) := by
  refine ⟨?_, ?_, ?_, ?_⟩
  · intro limit now email rl p hfind hle
    constructor
    · rw [crl_fst]
      simp only [hfind]
      rw [if_pos hle]
    · have h2 : (check_rate_limit limit now email rl).2 = pruneRL now rl := by
        unfold check_rate_limit
        simp only [hfind, if_pos hle]
      rw [h2, hfind]
  · intro now rl kv
    unfold pruneRL
    rw [List.mem_filter]
    constructor
    · rintro ⟨h1, h2⟩
      rw [decide_eq_true_eq] at h2
      exact ⟨h1, by omega⟩
    · rintro ⟨h1, h2⟩
      exact ⟨h1, by rw [decide_eq_true_eq]; omega⟩
  · intro limit now email rl hmiss
    unfold check_rate_limit
    simp only [hmiss]
  · intro limit t t' a b rl hab htt
    have key : (pruneRL t' ((check_rate_limit limit t a rl).2)).find?
        (fun kv => kv.1 == b) = (pruneRL t' rl).find? (fun kv => kv.1 == b) := by
      rcases crl_snd_shape limit t a rl with h | ⟨c, h⟩ | h
      · rw [h, pruneRL_pruneRL t t' htt]
      · rw [h, find?_pruneRL_setEntry t' a b ⟨c + 1, t⟩ hab,
          pruneRL_pruneRL t t' htt]
      · rw [h, find?_pruneRL_append t' a b ⟨1, t⟩ hab,
          pruneRL_pruneRL t t' htt]
    rw [crl_fst, crl_fst, key]

def c10Rl : List (String × RateEntry) := [("u@x.y", ⟨60, 0⟩)]

theorem c10_rate_limit_witness :
    (check_rate_limit 60 30 "u@x.y" c10Rl).1 = false :=
  (c10_rate_limit.1 60 30 "u@x.y" c10Rl ("u@x.y", ⟨60, 0⟩)
    (by decide) (by decide)).1

/-- CLAIM C10 counterexample: with the default limit of 60 and an entry
whose 60th `true` was recorded at time 0, a call 59 seconds later is still
refused, but a call exactly 60 seconds later is allowed again with the
count reset to 1 — the window reopens after at least 60 seconds, not after
strictly more than 60 as claimed. -/
theorem c10_window_counterexample :
    (check_rate_limit 60 59 "u@x.y" c10Rl).1 = false ∧
    check_rate_limit 60 60 "u@x.y" c10Rl = (true, [("u@x.y", ⟨1, 60⟩)]) := by
  constructor
  · decide
  · decide
